import Mathlib

/-! # xone GIP wheel driver (`driver/wheel.c`)

A shallow embedding of the wheel adapter of the xone driver: the packed input
report, the decode routine `gip_wheel_op_input`, the guide-button side channel,
the capability declaration `gip_wheel_init_input` and the probe sequence
`gip_wheel_probe`.

Conventions of the embedding.

* A buffer handed to the driver is the list of bytes that may be read through
  the `data` pointer; the `len` argument is a separate C `int`.  Reading past
  the end of the list is a fault (`none`).
* A call into the kernel or into the GIP framework is recorded, in program
  order, in the `calls` log of the client.  An "emitted event" is a recorded
  call of `input_event`, the function `input_report_key`, `input_report_abs`
  and `input_sync` expand to in `linux/input.h`.
* Pointers are handles: `none` is `NULL`, and dereferencing `NULL` is a fault.
-/

namespace Xone

/-! ## Constants of the kernel headers -/

/-- `EV_SYN` of `linux/input-event-codes.h`. -/
def EV_SYN : Nat := 0x00
/-- `EV_KEY` of `linux/input-event-codes.h`. -/
def EV_KEY : Nat := 0x01
/-- `EV_ABS` of `linux/input-event-codes.h`. -/
def EV_ABS : Nat := 0x03
/-- `SYN_REPORT` of `linux/input-event-codes.h`. -/
def SYN_REPORT : Nat := 0

def BTN_A : Nat := 0x130
def BTN_B : Nat := 0x131
def BTN_X : Nat := 0x133
def BTN_Y : Nat := 0x134
def BTN_TL : Nat := 0x136
def BTN_TR : Nat := 0x137
def BTN_SELECT : Nat := 0x13a
def BTN_START : Nat := 0x13b
def BTN_MODE : Nat := 0x13c

def ABS_X : Nat := 0x00
def ABS_Y : Nat := 0x01
def ABS_Z : Nat := 0x02
def ABS_RZ : Nat := 0x05
def ABS_HAT0X : Nat := 0x10
def ABS_HAT0Y : Nat := 0x11

/-- `EINVAL` of `errno-base.h`. -/
def EINVAL : Int := 22
/-- `ENOMEM` of `errno-base.h`. -/
def ENOMEM : Int := 12

/-- Largest value of a C `int`. -/
def INT_MAX : Int := 2147483647
/-- Smallest value of a C `int`. -/
def INT_MIN : Int := -2147483648

/-- The kernel's `BIT(n)`, that is `1UL << n`. -/
def BIT (n : Nat) : Nat := 1 <<< n

/-- `#define GIP_WL_NAME`. -/
def GIP_WL_NAME : String := "Microsoft X-Box One wheel"

/-! ## `enum gip_wheel_button` -/

def GIP_WL_BTN_MENU : Nat := BIT 2
def GIP_WL_BTN_VIEW : Nat := BIT 3
def GIP_WL_BTN_A : Nat := BIT 4
def GIP_WL_BTN_B : Nat := BIT 5
def GIP_WL_BTN_X : Nat := BIT 6
def GIP_WL_BTN_Y : Nat := BIT 7
def GIP_WL_BTN_DPAD_U : Nat := BIT 8
def GIP_WL_BTN_DPAD_D : Nat := BIT 9
def GIP_WL_BTN_DPAD_L : Nat := BIT 10
def GIP_WL_BTN_DPAD_R : Nat := BIT 11
def GIP_WL_BTN_BUMPER_L : Nat := BIT 12
def GIP_WL_BTN_BUMPER_R : Nat := BIT 13

/-! ## `struct gip_wheel_pkt_input` (packed, five `__le16` fields) -/

/-- One byte of a buffer. -/
abbrev u8 := Fin 256

/-- Byte offset of `buttons` in `struct gip_wheel_pkt_input`. -/
def pkt_off_buttons : Nat := 0
/-- Byte offset of `steering`. -/
def pkt_off_steering : Nat := 2
/-- Byte offset of `accelerator`. -/
def pkt_off_accelerator : Nat := 4
/-- Byte offset of `brake`. -/
def pkt_off_brake : Nat := 6
/-- Byte offset of `clutch`. -/
def pkt_off_clutch : Nat := 8
/-- Value of `sizeof(struct gip_wheel_pkt_input)`: five packed 16-bit fields. -/
def sizeof_pkt_input : Nat := 10

/-- Load of a `__le16` field at byte offset `off` followed by `le16_to_cpu`:
the byte at `off` is the low byte, whatever the byte order of the host.
`none` when one of the two bytes lies outside the buffer. -/
def le16_to_cpu_at (data : List u8) (off : Nat) : Option Nat := do
  let lo ← data[off]?
  let hi ← data[off + 1]?
  pure (lo.val ||| (hi.val <<< 8))

/-- Conversion of an `int` to `size_t` (64 bits), as the usual arithmetic
conversions do to the left operand of `len < sizeof(*pkt)`. -/
def size_t_of_int (len : Int) : Nat := (len % 2 ^ 64).toNat

/-- The C expression `!!v` on an `int`. -/
def lnot_lnot (v : Int) : Int := if v ≠ 0 then 1 else 0

/-- The C expression `a & b` on a `u16` promoted to `int` and an enumerator. -/
def bit_and (a b : Nat) : Int := ((a &&& b : Nat) : Int)

/-! ## Calls recorded in the log -/

/-- `enum gip_power_mode` of the GIP protocol header. -/
inductive gip_power_mode
  | GIP_PWR_ON
  | GIP_PWR_SLEEP
  | GIP_PWR_OFF
  | GIP_PWR_RESET
  deriving DecidableEq, Repr

/-- A call made by the driver into the kernel or the GIP framework, with its
arguments and, for a fallible call, the value it returned. -/
inductive ext_call
  | devm_kzalloc (ok : Bool)
  | gip_init_input (name : String) (ret : Int)
  | input_set_capability (dev : Nat) (type code : Nat)
  | input_set_abs_params (dev : Nat) (axis : Nat) (min max fuzz flat : Int)
  | input_register_device (dev : Nat) (ret : Int)
  | dev_err (err : Int)
  | gip_set_power_mode (mode : gip_power_mode) (ret : Int)
  | gip_init_led (ret : Int)
  | gip_complete_authentication (ret : Int)
  | input_event (dev : Nat) (type code : Nat) (value : Int)
  deriving DecidableEq, Repr

/-! ## Driver state -/

/-- `struct gip_led`, reduced to whether `gip_init_led` has set it up. -/
structure gip_led where
  registered : Bool
  deriving DecidableEq, Repr

/-- `struct gip_input`: the pointer to the input device. -/
structure gip_input where
  dev : Option Nat
  deriving DecidableEq, Repr

/-- `struct gip_wheel`. -/
structure gip_wheel where
  client : Option Nat
  led : gip_led
  input : gip_input
  deriving DecidableEq, Repr

/-- `struct gip_client`, as far as the wheel driver touches it: its identity,
the driver data of `client->dev`, and the log of calls made for it. -/
structure gip_client where
  id : Nat
  drvdata : Option gip_wheel
  calls : List ext_call
  deriving DecidableEq, Repr

/-- Record one call at the end of the log. -/
def gip_client.call (c : gip_client) (e : ext_call) : gip_client :=
  { c with calls := c.calls ++ [e] }

/-- Record a sequence of calls at the end of the log. -/
def gip_client.logged (c : gip_client) (es : List ext_call) : gip_client :=
  { c with calls := c.calls ++ es }

/-- `dev_get_drvdata(&client->dev)`. -/
def dev_get_drvdata (c : gip_client) : Option gip_wheel := c.drvdata

/-- `dev_set_drvdata(&client->dev, data)`. -/
def dev_set_drvdata (c : gip_client) (data : Option gip_wheel) : gip_client :=
  { c with drvdata := data }

/-! ## Input core entry points (`linux/input.h`) -/

/-- `input_event(dev, type, code, value)` on a device that is not `NULL`. -/
def input_event (c : gip_client) (dev : Nat) (type code : Nat) (value : Int) : gip_client :=
  c.call (.input_event dev type code value)

/-- `input_report_key`: `input_event(dev, EV_KEY, code, !!value)`. -/
def input_report_key (c : gip_client) (dev : Nat) (code : Nat) (value : Int) : gip_client :=
  input_event c dev EV_KEY code (lnot_lnot value)

/-- `input_report_abs`: `input_event(dev, EV_ABS, code, value)`. -/
def input_report_abs (c : gip_client) (dev : Nat) (code : Nat) (value : Int) : gip_client :=
  input_event c dev EV_ABS code value

/-- `input_sync`: `input_event(dev, EV_SYN, SYN_REPORT, 0)`. -/
def input_sync (c : gip_client) (dev : Nat) : gip_client :=
  input_event c dev EV_SYN SYN_REPORT 0

/-! ## `gip_wheel_op_guide_button` and `gip_wheel_op_input` -/

/-- `gip_wheel_op_guide_button(client, down)`.  The input core dereferences the
device pointer, so a `NULL` device faults at the first report. -/
def gip_wheel_op_guide_button (client : gip_client) (down : Bool) :
    Option (Int × gip_client) := do
  let wheel ← dev_get_drvdata client
  let dev ← wheel.input.dev
  let client := input_report_key client dev BTN_MODE (if down then 1 else 0)
  let client := input_sync client dev
  pure (0, client)

/-- `gip_wheel_op_input(client, data, len)`.  The `buttons` field is loaded
before `len` is compared with `sizeof(*pkt)`, and that comparison is made in
`size_t`.  The device pointer is first dereferenced by the input core at the
first report, after the length check. -/
def gip_wheel_op_input (client : gip_client) (data : List u8) (len : Int) :
    Option (Int × gip_client) := do
  let wheel ← dev_get_drvdata client
  let dev := wheel.input.dev
  let buttons ← le16_to_cpu_at data pkt_off_buttons
  if size_t_of_int len < sizeof_pkt_input then
    pure (-EINVAL, client)
  else
    let dev ← dev
    let client := input_report_key client dev BTN_START (bit_and buttons GIP_WL_BTN_MENU)
    let client := input_report_key client dev BTN_SELECT (bit_and buttons GIP_WL_BTN_VIEW)
    let client := input_report_key client dev BTN_A (bit_and buttons GIP_WL_BTN_A)
    let client := input_report_key client dev BTN_B (bit_and buttons GIP_WL_BTN_B)
    let client := input_report_key client dev BTN_X (bit_and buttons GIP_WL_BTN_X)
    let client := input_report_key client dev BTN_Y (bit_and buttons GIP_WL_BTN_Y)
    let client := input_report_key client dev BTN_TL (bit_and buttons GIP_WL_BTN_BUMPER_L)
    let client := input_report_key client dev BTN_TR (bit_and buttons GIP_WL_BTN_BUMPER_R)
    let steering ← le16_to_cpu_at data pkt_off_steering
    let client := input_report_abs client dev ABS_X (Int.ofNat steering)
    let accelerator ← le16_to_cpu_at data pkt_off_accelerator
    let client := input_report_abs client dev ABS_Y (Int.ofNat accelerator)
    let brake ← le16_to_cpu_at data pkt_off_brake
    let client := input_report_abs client dev ABS_Z (Int.ofNat brake)
    let clutch ← le16_to_cpu_at data pkt_off_clutch
    let client := input_report_abs client dev ABS_RZ (Int.ofNat clutch)
    let client := input_report_abs client dev ABS_HAT0X
      (lnot_lnot (bit_and buttons GIP_WL_BTN_DPAD_R) -
        lnot_lnot (bit_and buttons GIP_WL_BTN_DPAD_L))
    let client := input_report_abs client dev ABS_HAT0Y
      (lnot_lnot (bit_and buttons GIP_WL_BTN_DPAD_D) -
        lnot_lnot (bit_and buttons GIP_WL_BTN_DPAD_U))
    let client := input_sync client dev
    pure (0, client)

/-! ## External steps of the probe sequence

The functions below belong to the kernel or to `common.c` of the driver, not to
`wheel.c`.  Each is a parameter of the model: `probe_env` fixes what the call
returns, and the call is recorded in the log with that value. -/

/-- What the fallible external calls of one probe run return. -/
structure probe_env where
  /-- Whether `devm_kzalloc` returns a non-`NULL` pointer. -/
  kzalloc_ok : Bool
  /-- The device `gip_init_input` stores in `input->dev` when it succeeds. -/
  input_dev : Nat
  /-- Return value of `gip_init_input`. -/
  init_input : Int
  /-- Return value of `input_register_device`. -/
  register_device : Int
  /-- Return value of `gip_set_power_mode`. -/
  set_power_mode : Int
  /-- Return value of `gip_init_led`. -/
  init_led : Int
  /-- Return value of `gip_complete_authentication`. -/
  complete_authentication : Int
  deriving DecidableEq, Repr

/-- `devm_kzalloc(&client->dev, sizeof(*wheel), GFP_KERNEL)`: a zeroed
`struct gip_wheel`, or `NULL`. -/
def devm_kzalloc (env : probe_env) (c : gip_client) : Option gip_wheel × gip_client :=
  (if env.kzalloc_ok then some { client := none, led := ⟨false⟩, input := ⟨none⟩ }
   else none,
   c.call (.devm_kzalloc env.kzalloc_ok))

/-- `gip_init_input(input, client, name)`: on success `input->dev` is the newly
allocated device. -/
def gip_init_input (env : probe_env) (c : gip_client) (input : gip_input) (name : String) :
    Int × gip_input × gip_client :=
  (env.init_input,
   if env.init_input = 0 then { input with dev := some env.input_dev } else input,
   c.call (.gip_init_input name env.init_input))

/-- `input_set_capability(dev, type, code)`. -/
def input_set_capability (c : gip_client) (dev : Nat) (type code : Nat) : gip_client :=
  c.call (.input_set_capability dev type code)

/-- `input_set_abs_params(dev, axis, min, max, fuzz, flat)`. -/
def input_set_abs_params (c : gip_client) (dev : Nat) (axis : Nat) (min max fuzz flat : Int) :
    gip_client :=
  c.call (.input_set_abs_params dev axis min max fuzz flat)

/-- `input_register_device(dev)`. -/
def input_register_device (env : probe_env) (c : gip_client) (dev : Nat) : Int × gip_client :=
  (env.register_device, c.call (.input_register_device dev env.register_device))

/-- `dev_err(dev, ...)`: the message carries the error code. -/
def dev_err (c : gip_client) (err : Int) : gip_client :=
  c.call (.dev_err err)

/-- `gip_set_power_mode(client, mode)`. -/
def gip_set_power_mode (env : probe_env) (c : gip_client) (mode : gip_power_mode) :
    Int × gip_client :=
  (env.set_power_mode, c.call (.gip_set_power_mode mode env.set_power_mode))

/-- `gip_init_led(led, client)`: on success the LED is set up. -/
def gip_init_led (env : probe_env) (c : gip_client) (led : gip_led) :
    Int × gip_led × gip_client :=
  (env.init_led,
   if env.init_led = 0 then { led with registered := true } else led,
   c.call (.gip_init_led env.init_led))

/-- `gip_complete_authentication(client)`. -/
def gip_complete_authentication (env : probe_env) (c : gip_client) : Int × gip_client :=
  (env.complete_authentication,
   c.call (.gip_complete_authentication env.complete_authentication))

/-! ## `gip_wheel_init_input`, `gip_wheel_probe`, `gip_wheel_remove` -/

/-- `gip_wheel_init_input(wheel)`.  The input core dereferences `dev`, so a
`NULL` device faults at the first capability; `dev_err` goes through
`wheel->client`. -/
def gip_wheel_init_input (env : probe_env) (client : gip_client) (wheel : gip_wheel) :
    Option (Int × gip_client) := do
  let dev ← wheel.input.dev
  let client := input_set_capability client dev EV_KEY BTN_MODE
  let client := input_set_capability client dev EV_KEY BTN_START
  let client := input_set_capability client dev EV_KEY BTN_SELECT
  let client := input_set_capability client dev EV_KEY BTN_A
  let client := input_set_capability client dev EV_KEY BTN_B
  let client := input_set_capability client dev EV_KEY BTN_X
  let client := input_set_capability client dev EV_KEY BTN_Y
  let client := input_set_capability client dev EV_KEY BTN_TL
  let client := input_set_capability client dev EV_KEY BTN_TR
  let client := input_set_abs_params client dev ABS_X 0 65535 16 128
  let client := input_set_abs_params client dev ABS_Y 0 1023 0 0
  let client := input_set_abs_params client dev ABS_Z 0 1023 0 0
  let client := input_set_abs_params client dev ABS_RZ 0 1023 0 0
  let client := input_set_abs_params client dev ABS_HAT0X (-1) 1 0 0
  let client := input_set_abs_params client dev ABS_HAT0Y (-1) 1 0 0
  let (err, client) := input_register_device env client dev
  if err ≠ 0 then
    let _ ← wheel.client
    pure (err, dev_err client err)
  else
    pure (err, client)

/-- `gip_wheel_probe(client)`, statement by statement.  The result holds the
return value, the states of the client after each earlier statement that acts
on it, in program order, and the state in which probe returns.  The context is
attached by the last statement, `dev_set_drvdata`, which is a store and not a
recorded call. -/
def gip_wheel_probe_states (env : probe_env) (client : gip_client) :
    Option (Int × List gip_client × gip_client) :=
  match devm_kzalloc env client with
  | (none, c1) => some (-ENOMEM, [], c1)
  | (some wheel, c1) =>
    let wheel := { wheel with client := some c1.id }
    let (err, input, c2) := gip_init_input env c1 wheel.input GIP_WL_NAME
    let wheel := { wheel with input := input }
    if err ≠ 0 then some (err, [c1], c2) else
    match gip_wheel_init_input env c2 wheel with
    | none => none
    | some (err, c3) =>
      if err ≠ 0 then some (err, [c1, c2], c3) else
      let (err, c4) := gip_set_power_mode env c3 .GIP_PWR_ON
      if err ≠ 0 then some (err, [c1, c2, c3], c4) else
      let (err, led, c5) := gip_init_led env c4 wheel.led
      let wheel := { wheel with led := led }
      if err ≠ 0 then some (err, [c1, c2, c3, c4], c5) else
      let (err, c6) := gip_complete_authentication env c5
      if err ≠ 0 then some (err, [c1, c2, c3, c4, c5], c6) else
      let c7 := dev_set_drvdata c6 (some wheel)
      some (0, [c1, c2, c3, c4, c5, c6], c7)

/-- `gip_wheel_probe(client)`: the return value and the state of the client in
which probe returns. -/
def gip_wheel_probe (env : probe_env) (client : gip_client) : Option (Int × gip_client) :=
  (gip_wheel_probe_states env client).map (fun r => (r.1, r.2.2))

/-- `gip_wheel_remove(client)`. -/
def gip_wheel_remove (client : gip_client) : gip_client :=
  dev_set_drvdata client none

/-- A client to which a wheel with input device `7` is attached, with an empty log. -/
def client0 : gip_client :=
  { id := 1
    drvdata := some { client := some 1, led := ⟨true⟩, input := ⟨some 7⟩ }
    calls := [] }

/-! ## Observations used to state the properties -/

/-- The byte at offset `i` of a buffer, as a number (`0` outside the buffer). -/
def byte_at (data : List u8) (i : Nat) : Nat := (data.getD i 0).val

/-- The little-endian 16-bit word made of the bytes at offsets `i` and `i + 1`. -/
def le16_word (data : List u8) (i : Nat) : Nat := byte_at data i + 256 * byte_at data (i + 1)

/-- Bit `k` of the word `w`, as the integer `0` or `1`. -/
def bit_of (w k : Nat) : Int := if w.testBit k then 1 else 0

/-- Whether a recorded call is an input event of the given type and code. -/
def is_event (type code : Nat) : ext_call → Bool
  | .input_event _ t c _ => t == type && c == code
  | _ => false

/-- Whether a recorded call is a key event with the given value. -/
def is_key_with (value : Int) : ext_call → Bool
  | .input_event _ t _ v => t == EV_KEY && v == value
  | _ => false

/-- Type and code of a recorded input event. -/
def event_kind : ext_call → Option (Nat × Nat)
  | .input_event _ t c _ => some (t, c)
  | _ => none

/-- The range `(min, max)` the calls of `log` declare for `axis`: the arguments
of the last `input_set_abs_params` for that axis. -/
def declared_range (log : List ext_call) (axis : Nat) : Option (Int × Int) :=
  log.foldl (fun acc e =>
    match e with
    | .input_set_abs_params _ a lo hi _ _ => if a = axis then some (lo, hi) else acc
    | _ => acc) none

/-- The calls `gip_wheel_init_input` makes on device `dev` when registration
succeeds. -/
def init_input_calls (dev : Nat) : List ext_call :=
  match gip_wheel_init_input ⟨true, dev, 0, 0, 0, 0, 0⟩ ⟨0, none, []⟩
      { client := some 0, led := ⟨false⟩, input := ⟨some dev⟩ } with
  | some (_, c) => c.calls
  | none => []

/-- Whether `v` lies in the range `gip_wheel_init_input` declares for `axis`. -/
def in_declared_range (dev axis : Nat) (v : Int) : Bool :=
  match declared_range (init_input_calls dev) axis with
  | some (lo, hi) => decide (lo ≤ v ∧ v ≤ hi)
  | none => false

/-- The hat-axis table of the specification, from the negative-direction bit
(left, up) and the positive-direction bit (right, down). -/
def hat_table : Bool → Bool → Int
  | true, false => -1
  | false, true => 1
  | false, false => 0
  | true, true => 0

/-- The eight exposed buttons: bit position in the buttons word and key code. -/
def wheel_buttons : List (Nat × Nat) :=
  [(2, BTN_START), (3, BTN_SELECT), (4, BTN_A), (5, BTN_B), (6, BTN_X), (7, BTN_Y),
   (12, BTN_TL), (13, BTN_TR)]

/-- The key code a mapped bit of the buttons word is reported as; `none` for
the four d-pad bits, which are reported on the hat axes. -/
def key_of_bit (k : Nat) : Option Nat :=
  (wheel_buttons.find? (fun p => p.1 == k)).map (fun p => p.2)

/-- The frame of the end-to-end example: `buttons = 0x0030`, every axis zero. -/
def frame_a_b : List u8 := [0x30, 0, 0, 0, 0, 0, 0, 0, 0, 0]

/-- A frame of ten zero bytes. -/
def frame_zero : List u8 := [0, 0, 0, 0, 0, 0, 0, 0, 0, 0]

/-- A frame whose accelerator field is `0xffff`. -/
def frame_full_accelerator : List u8 := [0, 0, 0, 0, 0xff, 0xff, 0, 0, 0, 0]

/-- A frame whose buttons word has only the d-pad-up bit (bit 8). -/
def frame_dpad_up : List u8 := [0, 1, 0, 0, 0, 0, 0, 0, 0, 0]

/-- The calls one accepted report makes, from the decoded fields. -/
def report_calls (dev buttons steering accelerator brake clutch : Nat) : List ext_call :=
  [ .input_event dev EV_KEY BTN_START (bit_of buttons 2),
    .input_event dev EV_KEY BTN_SELECT (bit_of buttons 3),
    .input_event dev EV_KEY BTN_A (bit_of buttons 4),
    .input_event dev EV_KEY BTN_B (bit_of buttons 5),
    .input_event dev EV_KEY BTN_X (bit_of buttons 6),
    .input_event dev EV_KEY BTN_Y (bit_of buttons 7),
    .input_event dev EV_KEY BTN_TL (bit_of buttons 12),
    .input_event dev EV_KEY BTN_TR (bit_of buttons 13),
    .input_event dev EV_ABS ABS_X steering,
    .input_event dev EV_ABS ABS_Y accelerator,
    .input_event dev EV_ABS ABS_Z brake,
    .input_event dev EV_ABS ABS_RZ clutch,
    .input_event dev EV_ABS ABS_HAT0X (bit_of buttons 11 - bit_of buttons 10),
    .input_event dev EV_ABS ABS_HAT0Y (bit_of buttons 9 - bit_of buttons 8),
    .input_event dev EV_SYN SYN_REPORT 0 ]

/-! ## The probe sequence as the specification words it -/

/-- The fallible steps of `gip_wheel_probe`, named after what they do. -/
inductive probe_step
  | alloc_context
  | init_input
  | register_input
  | set_power_mode
  | init_led
  | complete_authentication
  deriving DecidableEq, Repr

/-- The steps in the order in which the source takes them. -/
def probe_order : List probe_step :=
  [.alloc_context, .init_input, .register_input, .set_power_mode, .init_led,
   .complete_authentication]

/-- The error code of a step in `env`: `0` when the step succeeds; a failed
allocation counts as `-ENOMEM`. -/
def step_error (env : probe_env) : probe_step → Int
  | .alloc_context => if env.kzalloc_ok then 0 else -ENOMEM
  | .init_input => env.init_input
  | .register_input => env.register_device
  | .set_power_mode => env.set_power_mode
  | .init_led => env.init_led
  | .complete_authentication => env.complete_authentication

/-- The step a recorded call belongs to, if any. -/
def step_of_call : ext_call → Option probe_step
  | .devm_kzalloc _ => some .alloc_context
  | .gip_init_input _ _ => some .init_input
  | .input_register_device _ _ => some .register_input
  | .gip_set_power_mode _ _ => some .set_power_mode
  | .gip_init_led _ => some .init_led
  | .gip_complete_authentication _ => some .complete_authentication
  | _ => none

/-- The steps taken when `steps` are run in order and the run stops at the
first step that fails: every step up to and including that one. -/
def steps_until_failure (env : probe_env) : List probe_step → List probe_step
  | [] => []
  | s :: rest => if step_error env s = 0 then s :: steps_until_failure env rest else [s]

/-- The error code of the first step of `steps` that fails, `0` if none does. -/
def first_error (env : probe_env) : List probe_step → Int
  | [] => 0
  | s :: rest => if step_error env s = 0 then first_error env rest else step_error env s

/-- The fifteen capability declarations of `gip_wheel_init_input` on `dev`. -/
def capability_calls (dev : Nat) : List ext_call :=
  [ .input_set_capability dev EV_KEY BTN_MODE,
    .input_set_capability dev EV_KEY BTN_START,
    .input_set_capability dev EV_KEY BTN_SELECT,
    .input_set_capability dev EV_KEY BTN_A,
    .input_set_capability dev EV_KEY BTN_B,
    .input_set_capability dev EV_KEY BTN_X,
    .input_set_capability dev EV_KEY BTN_Y,
    .input_set_capability dev EV_KEY BTN_TL,
    .input_set_capability dev EV_KEY BTN_TR,
    .input_set_abs_params dev ABS_X 0 65535 16 128,
    .input_set_abs_params dev ABS_Y 0 1023 0 0,
    .input_set_abs_params dev ABS_Z 0 1023 0 0,
    .input_set_abs_params dev ABS_RZ 0 1023 0 0,
    .input_set_abs_params dev ABS_HAT0X (-1) 1 0 0,
    .input_set_abs_params dev ABS_HAT0Y (-1) 1 0 0 ]

/-- The wheel that a successful probe attaches to a client. -/
def probed_wheel (env : probe_env) (client : gip_client) : gip_wheel :=
  { client := some client.id, led := ⟨true⟩, input := ⟨some env.input_dev⟩ }

/-- `DeviceLifecycleState` of the specification. -/
inductive lifecycle
  | Uninitialized
  | InputRegistered
  | PoweredOn
  | LedReady
  | Active
  | Removed
  deriving DecidableEq, Repr

/-- What one recorded call does to the lifecycle of the specification. -/
inductive lifecycle_verdict
  | stay
  | advance (s : lifecycle)
  | halt
  | illegal
  deriving DecidableEq, Repr

/-- The lifecycle of the specification, read on one recorded call: the context
and the input device are prepared and the capabilities declared only while
`Uninitialized`; a successful registration leads to `InputRegistered`, from
there a successful power-on command (`GIP_PWR_ON`) to `PoweredOn`, from there a
successful LED initialisation to `LedReady`, from there a successful
authentication completion to `Active`.  A failed step halts; any other call of
a step is out of order. -/
def lifecycle_step : lifecycle → ext_call → lifecycle_verdict
  | _, .dev_err _ => .stay
  | .Uninitialized, .devm_kzalloc ok => if ok then .stay else .halt
  | .Uninitialized, .gip_init_input _ ret => if ret = 0 then .stay else .halt
  | .Uninitialized, .input_set_capability _ _ _ => .stay
  | .Uninitialized, .input_set_abs_params _ _ _ _ _ _ => .stay
  | .Uninitialized, .input_register_device _ ret =>
    if ret = 0 then .advance .InputRegistered else .halt
  | .InputRegistered, .gip_set_power_mode .GIP_PWR_ON ret =>
    if ret = 0 then .advance .PoweredOn else .halt
  | .PoweredOn, .gip_init_led ret => if ret = 0 then .advance .LedReady else .halt
  | .LedReady, .gip_complete_authentication ret =>
    if ret = 0 then .advance .Active else .halt
  | _, _ => .illegal

/-- Whether a call may still follow a failed step: only the error message. -/
def after_halt : ext_call → Bool
  | .dev_err _ => true
  | _ => false

/-- The states the lifecycle passes through on a log, starting in `s`; `none`
when a call is out of order or a step follows a failed one. -/
def lifecycle_path : lifecycle → List ext_call → Option (List lifecycle)
  | s, [] => some [s]
  | s, c :: cs =>
    match lifecycle_step s c with
    | .stay => lifecycle_path s cs
    | .advance t => (lifecycle_path t cs).map (fun p => s :: p)
    | .halt => if cs.all after_halt then some [s] else none
    | .illegal => none

/-- The full state sequence of a successful probe. -/
def lifecycle_order : List lifecycle :=
  [.Uninitialized, .InputRegistered, .PoweredOn, .LedReady, .Active]

/-- A probe environment in which every step succeeds. -/
def env_ok : probe_env := ⟨true, 7, 0, 0, 0, 0, 0⟩

/-- A client that has not been probed. -/
def client_new : gip_client := { id := 1, drvdata := none, calls := [] }

/-! ## Observations on the declared capabilities -/

/-- The key codes that the calls of `log` declare through
`input_set_capability(dev, EV_KEY, code)`, in program order. -/
def declared_keys (log : List ext_call) : List Nat :=
  log.filterMap fun e =>
    match e with
    | .input_set_capability _ t c => if t = EV_KEY then some c else none
    | _ => none

/-- The capabilities of a type other than `EV_KEY` that the calls of `log`
declare through `input_set_capability`, as `(type, code)`. -/
def declared_other (log : List ext_call) : List (Nat × Nat) :=
  log.filterMap fun e =>
    match e with
    | .input_set_capability _ t c => if t = EV_KEY then none else some (t, c)
    | _ => none

/-- The axes that the calls of `log` give abs parameters, each with the
declared minimum and maximum, in program order. -/
def declared_abs (log : List ext_call) : List (Nat × Int × Int) :=
  log.filterMap fun e =>
    match e with
    | .input_set_abs_params _ a lo hi _ _ => some (a, lo, hi)
    | _ => none

/-- The codes of the axes that the calls of `log` give abs parameters. -/
def declared_axes (log : List ext_call) : List Nat :=
  (declared_abs log).map (fun p => p.1)

/-- Whether a recorded call declares a capability of the input device. -/
def is_declaration : ext_call → Bool
  | .input_set_capability _ _ _ => true
  | .input_set_abs_params _ _ _ _ _ _ => true
  | _ => false

/-- The twelve enumerators of `enum gip_wheel_button`, in the order of the
source. -/
def gip_wheel_button_masks : List Nat :=
  [GIP_WL_BTN_MENU, GIP_WL_BTN_VIEW, GIP_WL_BTN_A, GIP_WL_BTN_B, GIP_WL_BTN_X, GIP_WL_BTN_Y,
   GIP_WL_BTN_DPAD_U, GIP_WL_BTN_DPAD_D, GIP_WL_BTN_DPAD_L, GIP_WL_BTN_DPAD_R,
   GIP_WL_BTN_BUMPER_L, GIP_WL_BTN_BUMPER_R]

/-- The wheel attached to `client0`. -/
def wheel0 : gip_wheel := { client := some 1, led := ⟨true⟩, input := ⟨some 7⟩ }

/-- The example frame with the unmapped bits 0, 1, 14 and 15 of the buttons
word set as well: `buttons = 0xc033`. -/
def frame_a_b_unmapped : List u8 := [0x33, 0xc0, 0, 0, 0, 0, 0, 0, 0, 0]

/-- The example frame followed by three more bytes. -/
def frame_a_b_long : List u8 := [0x30, 0, 0, 0, 0, 0, 0, 0, 0, 0, 0xaa, 0xbb, 0xcc]

/-! ## Basic facts -/

theorem and_BIT_ne_zero (w k : Nat) : (w &&& BIT k ≠ 0) ↔ w.testBit k = true := by
  have hb : BIT k = 2 ^ k := by simp [BIT, Nat.shiftLeft_eq]
  rw [hb]
  constructor
  · intro h
    by_contra hk
    apply h
    apply Nat.eq_of_testBit_eq
    intro j
    simp only [Nat.testBit_and, Nat.testBit_two_pow, Nat.zero_testBit]
    by_cases hj : k = j
    · subst hj; simp [hk]
    · simp [hj]
  · intro h h0
    have : (w &&& 2 ^ k).testBit k = true := by
      simp [Nat.testBit_and, Nat.testBit_two_pow, h]
    rw [h0] at this
    simp at this

theorem lnot_lnot_bit_and (w k : Nat) : lnot_lnot (bit_and w (BIT k)) = bit_of w k := by
  unfold lnot_lnot bit_and bit_of
  by_cases h : w.testBit k = true
  · have := (and_BIT_ne_zero w k).2 h
    simp [h, this]
  · have : w &&& BIT k = 0 := by
      by_contra h0
      exact h ((and_BIT_ne_zero w k).1 h0)
    simp [h, this]

theorem or_shiftLeft_eight (lo hi : Nat) (h : lo < 256) : lo ||| (hi <<< 8) = lo + 256 * hi := by
  have := Nat.mul_add_lt_is_or (i := 8) (b := lo) (by simpa using h) hi
  rw [Nat.shiftLeft_eq, Nat.or_comm, Nat.mul_comm hi]
  simp only [Nat.reducePow] at this ⊢
  omega

theorem le16_to_cpu_at_eq (data : List u8) (off : Nat) (h : off + 1 < data.length) :
    le16_to_cpu_at data off = some (le16_word data off) := by
  have h0 : off < data.length := by omega
  simp [le16_to_cpu_at, le16_word, byte_at, List.getElem?_eq_getElem, h, h0, List.getD_eq_getElem,
    or_shiftLeft_eight]

theorem size_t_of_int_of_nonneg (len : Int) (h0 : 0 ≤ len) (h1 : len ≤ INT_MAX) :
    (size_t_of_int len : Int) = len := by
  unfold size_t_of_int
  unfold INT_MAX at h1
  omega

theorem not_short_of_frame (len : Int) (h0 : 10 ≤ len) (h1 : len ≤ INT_MAX) :
    ¬ size_t_of_int len < sizeof_pkt_input := by
  have h := size_t_of_int_of_nonneg len (by omega) h1
  unfold sizeof_pkt_input
  omega

/-- An accepted report: on a client with an attached wheel and a registered
input device, a buffer with at least ten readable bytes and `10 ≤ len` is
decoded into the fifteen calls of `report_calls`, and `0` is returned. -/
theorem op_input_frame (client : gip_client) (wheel : gip_wheel) (dev : Nat)
    (data : List u8) (len : Int)
    (hw : client.drvdata = some wheel) (hd : wheel.input.dev = some dev)
    (hlen : 10 ≤ len) (hmax : len ≤ INT_MAX) (hbuf : len ≤ data.length) :
    gip_wheel_op_input client data len =
      some (0, client.logged (report_calls dev (le16_word data 0) (le16_word data 2)
        (le16_word data 4) (le16_word data 6) (le16_word data 8))) := by
  have hl : 10 ≤ data.length := by omega
  have hs := not_short_of_frame len hlen hmax
  simp only [gip_wheel_op_input, dev_get_drvdata, hw, hd, pkt_off_buttons, pkt_off_steering,
    pkt_off_accelerator, pkt_off_brake, pkt_off_clutch,
    le16_to_cpu_at_eq data 0 (by omega), le16_to_cpu_at_eq data 2 (by omega),
    le16_to_cpu_at_eq data 4 (by omega), le16_to_cpu_at_eq data 6 (by omega),
    le16_to_cpu_at_eq data 8 (by omega), Option.bind_eq_bind, Option.some_bind,
    Option.pure_def, if_neg hs,
    GIP_WL_BTN_MENU, GIP_WL_BTN_VIEW, GIP_WL_BTN_A, GIP_WL_BTN_B, GIP_WL_BTN_X, GIP_WL_BTN_Y,
    GIP_WL_BTN_DPAD_U, GIP_WL_BTN_DPAD_D, GIP_WL_BTN_DPAD_L, GIP_WL_BTN_DPAD_R,
    GIP_WL_BTN_BUMPER_L, GIP_WL_BTN_BUMPER_R, lnot_lnot_bit_and,
    input_report_key, input_report_abs, input_sync, input_event, gip_client.call,
    gip_client.logged, report_calls, List.append_assoc, List.singleton_append, Int.ofNat_eq_coe,
    List.cons_append, List.nil_append]

/-- A rejected report: with `0 ≤ len < 10` and the `buttons` field readable,
`-EINVAL` is returned and the client is left as it was. -/
theorem op_input_short (client : gip_client) (wheel : gip_wheel)
    (data : List u8) (len : Int)
    (hw : client.drvdata = some wheel)
    (h0 : 0 ≤ len) (h10 : len < 10) (hbuf : 2 ≤ data.length) :
    gip_wheel_op_input client data len = some (-EINVAL, client) := by
  have hs : size_t_of_int len < sizeof_pkt_input := by
    have h := size_t_of_int_of_nonneg len h0 (by unfold INT_MAX; omega)
    unfold sizeof_pkt_input
    omega
  simp only [gip_wheel_op_input, dev_get_drvdata, hw, pkt_off_buttons,
    le16_to_cpu_at_eq data 0 (by omega), Option.bind_eq_bind, Option.some_bind,
    Option.pure_def, if_pos hs]

theorem byte_at_lt (data : List u8) (i : Nat) : byte_at data i < 256 := by
  unfold byte_at
  exact (data.getD i 0).isLt

theorem le16_word_le (data : List u8) (i : Nat) : le16_word data i ≤ 65535 := by
  have h0 := byte_at_lt data i
  have h1 := byte_at_lt data (i + 1)
  unfold le16_word
  omega

theorem bit_of_cases (w k : Nat) : bit_of w k = 0 ∨ bit_of w k = 1 := by
  unfold bit_of
  by_cases h : w.testBit k = true <;> simp [h]

theorem declared_range_init (dev : Nat) :
    declared_range (init_input_calls dev) ABS_X = some (0, 65535) ∧
    declared_range (init_input_calls dev) ABS_Y = some (0, 1023) ∧
    declared_range (init_input_calls dev) ABS_Z = some (0, 1023) ∧
    declared_range (init_input_calls dev) ABS_RZ = some (0, 1023) ∧
    declared_range (init_input_calls dev) ABS_HAT0X = some (-1, 1) ∧
    declared_range (init_input_calls dev) ABS_HAT0Y = some (-1, 1) := by
  simp [declared_range, init_input_calls, gip_wheel_init_input, input_set_capability,
    input_set_abs_params, input_register_device, gip_client.call, ABS_X, ABS_Y, ABS_Z, ABS_RZ,
    ABS_HAT0X, ABS_HAT0Y]

/-! ## The runs of `gip_wheel_probe` -/

theorem init_input_run (env : probe_env) (client : gip_client) (led : gip_led) (dev cid : Nat) :
    gip_wheel_init_input env client { client := some cid, led := led, input := ⟨some dev⟩ } =
      some (env.register_device,
        client.logged (capability_calls dev ++
          .input_register_device dev env.register_device ::
            (if env.register_device ≠ 0 then [.dev_err env.register_device] else []))) := by
  by_cases h : env.register_device = 0 <;>
    simp [gip_wheel_init_input, h, input_set_capability, input_set_abs_params,
      input_register_device, dev_err, gip_client.call, gip_client.logged, capability_calls]

/-- Every run of `gip_wheel_probe`, by the first step that fails. -/
theorem probe_runs (env : probe_env) (client : gip_client) :
    (env.kzalloc_ok = false →
      gip_wheel_probe env client = some (-ENOMEM, client.logged [.devm_kzalloc false])) ∧
    (env.kzalloc_ok = true → env.init_input ≠ 0 →
      gip_wheel_probe env client = some (env.init_input,
        client.logged [.devm_kzalloc true, .gip_init_input GIP_WL_NAME env.init_input])) ∧
    (env.kzalloc_ok = true → env.init_input = 0 → env.register_device ≠ 0 →
      gip_wheel_probe env client = some (env.register_device,
        client.logged ([.devm_kzalloc true, .gip_init_input GIP_WL_NAME 0] ++
          capability_calls env.input_dev ++
          [.input_register_device env.input_dev env.register_device,
           .dev_err env.register_device]))) ∧
    (env.kzalloc_ok = true → env.init_input = 0 → env.register_device = 0 →
        env.set_power_mode ≠ 0 →
      gip_wheel_probe env client = some (env.set_power_mode,
        client.logged ([.devm_kzalloc true, .gip_init_input GIP_WL_NAME 0] ++
          capability_calls env.input_dev ++
          [.input_register_device env.input_dev 0,
           .gip_set_power_mode .GIP_PWR_ON env.set_power_mode]))) ∧
    (env.kzalloc_ok = true → env.init_input = 0 → env.register_device = 0 →
        env.set_power_mode = 0 → env.init_led ≠ 0 →
      gip_wheel_probe env client = some (env.init_led,
        client.logged ([.devm_kzalloc true, .gip_init_input GIP_WL_NAME 0] ++
          capability_calls env.input_dev ++
          [.input_register_device env.input_dev 0, .gip_set_power_mode .GIP_PWR_ON 0,
           .gip_init_led env.init_led]))) ∧
    (env.kzalloc_ok = true → env.init_input = 0 → env.register_device = 0 →
        env.set_power_mode = 0 → env.init_led = 0 → env.complete_authentication ≠ 0 →
      gip_wheel_probe env client = some (env.complete_authentication,
        client.logged ([.devm_kzalloc true, .gip_init_input GIP_WL_NAME 0] ++
          capability_calls env.input_dev ++
          [.input_register_device env.input_dev 0, .gip_set_power_mode .GIP_PWR_ON 0,
           .gip_init_led 0,
           .gip_complete_authentication env.complete_authentication]))) ∧
    (env.kzalloc_ok = true → env.init_input = 0 → env.register_device = 0 →
        env.set_power_mode = 0 → env.init_led = 0 → env.complete_authentication = 0 →
      gip_wheel_probe env client = some (0,
        dev_set_drvdata
          (client.logged ([.devm_kzalloc true, .gip_init_input GIP_WL_NAME 0] ++
            capability_calls env.input_dev ++
            [.input_register_device env.input_dev 0, .gip_set_power_mode .GIP_PWR_ON 0,
             .gip_init_led 0, .gip_complete_authentication 0]))
          (some (probed_wheel env client)))) := by
  refine ⟨?_, ?_, ?_, ?_, ?_, ?_, ?_⟩
  · intro h1
    simp [gip_wheel_probe, gip_wheel_probe_states,
      devm_kzalloc, h1, gip_client.call, gip_client.logged]
  · intro h1 h2
    simp [gip_wheel_probe, gip_wheel_probe_states,
      devm_kzalloc, gip_init_input, h1, h2, gip_client.call,
      gip_client.logged]
  · intro h1 h2 h3
    simp [gip_wheel_probe, gip_wheel_probe_states,
      devm_kzalloc, gip_init_input, h1, h2, h3, init_input_run,
      gip_client.call, gip_client.logged]
  · intro h1 h2 h3 h4
    simp [gip_wheel_probe, gip_wheel_probe_states,
      devm_kzalloc, gip_init_input, gip_set_power_mode, h1, h2, h3, h4,
      init_input_run, gip_client.call, gip_client.logged]
  · intro h1 h2 h3 h4 h5
    simp [gip_wheel_probe, gip_wheel_probe_states,
      devm_kzalloc, gip_init_input, gip_set_power_mode, gip_init_led,
      h1, h2, h3, h4, h5,
      init_input_run, gip_client.call, gip_client.logged]
  · intro h1 h2 h3 h4 h5 h6
    simp [gip_wheel_probe, gip_wheel_probe_states,
      devm_kzalloc, gip_init_input, gip_set_power_mode, gip_init_led,
      gip_complete_authentication, h1, h2, h3, h4, h5, h6,
      init_input_run, gip_client.call, gip_client.logged]
  · intro h1 h2 h3 h4 h5 h6
    simp [gip_wheel_probe, gip_wheel_probe_states,
      devm_kzalloc, gip_init_input, gip_set_power_mode, gip_init_led,
      gip_complete_authentication, h1, h2, h3, h4, h5, h6, dev_set_drvdata, probed_wheel,
      init_input_run, gip_client.call, gip_client.logged]

theorem steps_until_failure_split (env : probe_env) (pre : List probe_step) (s : probe_step)
    (post : List probe_step) (hpre : ∀ t ∈ pre, step_error env t = 0)
    (hs : step_error env s ≠ 0) :
    steps_until_failure env (pre ++ s :: post) = pre ++ [s] ∧
      first_error env (pre ++ s :: post) = step_error env s := by
  induction pre with
  | nil => simp [steps_until_failure, first_error, hs]
  | cons p pre ih =>
    have hp : step_error env p = 0 := hpre p (by simp)
    have ih := ih (fun t ht => hpre t (by simp [ht]))
    simp [steps_until_failure, first_error, hp, ih]

theorem steps_until_failure_all (env : probe_env) (steps : List probe_step)
    (h : ∀ t ∈ steps, step_error env t = 0) :
    steps_until_failure env steps = steps ∧ first_error env steps = 0 := by
  induction steps with
  | nil => simp [steps_until_failure, first_error]
  | cons p steps ih =>
    have hp : step_error env p = 0 := h p (by simp)
    have ih := ih (fun t ht => h t (by simp [ht]))
    simp [steps_until_failure, first_error, hp, ih]

theorem first_error_eq_zero_iff (env : probe_env) (steps : List probe_step) :
    first_error env steps = 0 ↔ ∀ t ∈ steps, step_error env t = 0 := by
  induction steps with
  | nil => simp [first_error]
  | cons p steps ih =>
    by_cases hp : step_error env p = 0
    · simp [first_error, hp, ih]
    · simp [first_error, hp]

theorem capability_calls_no_step (dev : Nat) :
    (capability_calls dev).filterMap step_of_call = [] := by
  simp [capability_calls, step_of_call]

/-- The steps `gip_wheel_probe` invokes and the value it returns are those of
running `probe_order` up to the first failure. -/
theorem probe_steps (env : probe_env) (client : gip_client) :
    ∃ client' evs, gip_wheel_probe env client = some (first_error env probe_order, client') ∧
      client'.calls = client.calls ++ evs ∧
      evs.filterMap step_of_call = steps_until_failure env probe_order := by
  obtain ⟨r1, r2, r3, r4, r5, r6, r7⟩ := probe_runs env client
  by_cases h1 : env.kzalloc_ok = true
  swap
  · have h1 : env.kzalloc_ok = false := by simpa using h1
    refine ⟨client.logged [.devm_kzalloc false],
      [.devm_kzalloc false], ?_, ?_, ?_⟩
    · rw [r1 h1]
      simp [first_error, probe_order, step_error, h1, ENOMEM]
    · simp [gip_client.logged, dev_set_drvdata]
    · simp [steps_until_failure, probe_order, step_error, h1, step_of_call, ENOMEM]
  by_cases h2 : env.init_input = 0
  swap
  · refine ⟨client.logged [.devm_kzalloc true, .gip_init_input GIP_WL_NAME env.init_input],
      [.devm_kzalloc true, .gip_init_input GIP_WL_NAME env.init_input], ?_, ?_, ?_⟩
    · rw [r2 h1 h2]
      simp [first_error, probe_order, step_error, h1, h2]
    · simp [gip_client.logged, dev_set_drvdata]
    · simp [steps_until_failure, probe_order, step_error, h1, h2, step_of_call,
        List.filterMap_append, capability_calls_no_step]
  by_cases h3 : env.register_device = 0
  swap
  · refine ⟨client.logged ([.devm_kzalloc true, .gip_init_input GIP_WL_NAME 0] ++
        capability_calls env.input_dev ++
        [.input_register_device env.input_dev env.register_device,
         .dev_err env.register_device]),
      ([.devm_kzalloc true, .gip_init_input GIP_WL_NAME 0] ++
        capability_calls env.input_dev ++
        [.input_register_device env.input_dev env.register_device,
         .dev_err env.register_device]), ?_, ?_, ?_⟩
    · rw [r3 h1 h2 h3]
      simp [first_error, probe_order, step_error, h1, h2, h3]
    · simp [gip_client.logged, dev_set_drvdata]
    · simp [steps_until_failure, probe_order, step_error, h1, h2, h3, step_of_call,
        List.filterMap_append, capability_calls_no_step]
  by_cases h4 : env.set_power_mode = 0
  swap
  · refine ⟨client.logged ([.devm_kzalloc true, .gip_init_input GIP_WL_NAME 0] ++
        capability_calls env.input_dev ++
        [.input_register_device env.input_dev 0,
         .gip_set_power_mode .GIP_PWR_ON env.set_power_mode]),
      ([.devm_kzalloc true, .gip_init_input GIP_WL_NAME 0] ++
        capability_calls env.input_dev ++
        [.input_register_device env.input_dev 0,
         .gip_set_power_mode .GIP_PWR_ON env.set_power_mode]), ?_, ?_, ?_⟩
    · rw [r4 h1 h2 h3 h4]
      simp [first_error, probe_order, step_error, h1, h2, h3, h4]
    · simp [gip_client.logged, dev_set_drvdata]
    · simp [steps_until_failure, probe_order, step_error, h1, h2, h3, h4, step_of_call,
        List.filterMap_append, capability_calls_no_step]
  by_cases h5 : env.init_led = 0
  swap
  · refine ⟨client.logged ([.devm_kzalloc true, .gip_init_input GIP_WL_NAME 0] ++
        capability_calls env.input_dev ++
        [.input_register_device env.input_dev 0, .gip_set_power_mode .GIP_PWR_ON 0,
         .gip_init_led env.init_led]),
      ([.devm_kzalloc true, .gip_init_input GIP_WL_NAME 0] ++
        capability_calls env.input_dev ++
        [.input_register_device env.input_dev 0, .gip_set_power_mode .GIP_PWR_ON 0,
         .gip_init_led env.init_led]), ?_, ?_, ?_⟩
    · rw [r5 h1 h2 h3 h4 h5]
      simp [first_error, probe_order, step_error, h1, h2, h3, h4, h5]
    · simp [gip_client.logged, dev_set_drvdata]
    · simp [steps_until_failure, probe_order, step_error, h1, h2, h3, h4, h5, step_of_call,
        List.filterMap_append, capability_calls_no_step]
  by_cases h6 : env.complete_authentication = 0
  swap
  · refine ⟨client.logged ([.devm_kzalloc true, .gip_init_input GIP_WL_NAME 0] ++
        capability_calls env.input_dev ++
        [.input_register_device env.input_dev 0, .gip_set_power_mode .GIP_PWR_ON 0,
         .gip_init_led 0, .gip_complete_authentication env.complete_authentication]),
      ([.devm_kzalloc true, .gip_init_input GIP_WL_NAME 0] ++
        capability_calls env.input_dev ++
        [.input_register_device env.input_dev 0, .gip_set_power_mode .GIP_PWR_ON 0,
         .gip_init_led 0, .gip_complete_authentication env.complete_authentication]), ?_, ?_, ?_⟩
    · rw [r6 h1 h2 h3 h4 h5 h6]
      simp [first_error, probe_order, step_error, h1, h2, h3, h4, h5, h6]
    · simp [gip_client.logged, dev_set_drvdata]
    · simp [steps_until_failure, probe_order, step_error, h1, h2, h3, h4, h5, h6, step_of_call,
        List.filterMap_append, capability_calls_no_step]
  · refine ⟨dev_set_drvdata
        (client.logged ([.devm_kzalloc true, .gip_init_input GIP_WL_NAME 0] ++
        capability_calls env.input_dev ++
        [.input_register_device env.input_dev 0, .gip_set_power_mode .GIP_PWR_ON 0,
         .gip_init_led 0, .gip_complete_authentication 0]))
        (some (probed_wheel env client)),
      ([.devm_kzalloc true, .gip_init_input GIP_WL_NAME 0] ++
        capability_calls env.input_dev ++
        [.input_register_device env.input_dev 0, .gip_set_power_mode .GIP_PWR_ON 0,
         .gip_init_led 0, .gip_complete_authentication 0]), ?_, ?_, ?_⟩
    · rw [r7 h1 h2 h3 h4 h5 h6]
      simp [first_error, probe_order, step_error, h1, h2, h3, h4, h5, h6]
    · simp [gip_client.logged, dev_set_drvdata]
    · simp [steps_until_failure, probe_order, step_error, h1, h2, h3, h4, h5, h6, step_of_call,
        List.filterMap_append, capability_calls_no_step]

/-! ## The claims -/

/-- C1, refuted on the code: `len = -1` is a length below the report size, yet
`gip_wheel_op_input` does not return `-EINVAL`: the comparison with
`sizeof(*pkt)` is made in `size_t`, the frame is accepted, `0` is returned and
fifteen events are emitted. -/
theorem op_input_negative_len_accepted :
    (-1 : Int) < 10 ∧ INT_MIN ≤ (-1 : Int) ∧
    gip_wheel_op_input client0 frame_zero (-1) ≠ some (-EINVAL, client0) ∧
    gip_wheel_op_input client0 frame_zero (-1) =
      some (0, client0.logged
        [ .input_event 7 EV_KEY BTN_START 0, .input_event 7 EV_KEY BTN_SELECT 0,
          .input_event 7 EV_KEY BTN_A 0, .input_event 7 EV_KEY BTN_B 0,
          .input_event 7 EV_KEY BTN_X 0, .input_event 7 EV_KEY BTN_Y 0,
          .input_event 7 EV_KEY BTN_TL 0, .input_event 7 EV_KEY BTN_TR 0,
          .input_event 7 EV_ABS ABS_X 0, .input_event 7 EV_ABS ABS_Y 0,
          .input_event 7 EV_ABS ABS_Z 0, .input_event 7 EV_ABS ABS_RZ 0,
          .input_event 7 EV_ABS ABS_HAT0X 0, .input_event 7 EV_ABS ABS_HAT0Y 0,
          .input_event 7 EV_SYN SYN_REPORT 0 ]) := by
  decide

/-- C2, counterexample: the ten-byte frame whose accelerator field is `0xffff`
is accepted and `ABS_Y = 65535` is emitted, outside the range `0..1023` that
`gip_wheel_init_input` declares for `ABS_Y`. -/
theorem op_input_abs_y_out_of_range :
    ∃ evs, gip_wheel_op_input client0 frame_full_accelerator 10 =
        some (0, client0.logged evs) ∧
      ext_call.input_event 7 EV_ABS ABS_Y 65535 ∈ evs ∧
      declared_range (init_input_calls 7) ABS_Y = some (0, 1023) ∧
      in_declared_range 7 ABS_Y 65535 = false :=
  ⟨report_calls 7 0 0 65535 0 0, by decide, by decide, by decide, by decide⟩

/-- C2, amended: for every accepted frame, every emitted `ABS_X`, `ABS_HAT0X`
and `ABS_HAT0Y` value lies in the range `gip_wheel_init_input` declares for
its axis (`0..65535`, `-1..1`, `-1..1`); every emitted `ABS_Y`, `ABS_Z` and
`ABS_RZ` value is the unsigned 16-bit wire field, unclamped, so it lies in
`0..65535`, and it lies in the declared range `0..1023` exactly when the wire
field is at most `1023`. -/
theorem op_input_abs_ranges (client : gip_client) (wheel : gip_wheel) (dev : Nat)
    (data : List u8) (len : Int)
    (hw : client.drvdata = some wheel) (hd : wheel.input.dev = some dev)
    (hlen : 10 ≤ len) (hmax : len ≤ INT_MAX) (hbuf : len ≤ data.length) :
    declared_range (init_input_calls dev) ABS_X = some (0, 65535) ∧
    declared_range (init_input_calls dev) ABS_Y = some (0, 1023) ∧
    declared_range (init_input_calls dev) ABS_Z = some (0, 1023) ∧
    declared_range (init_input_calls dev) ABS_RZ = some (0, 1023) ∧
    declared_range (init_input_calls dev) ABS_HAT0X = some (-1, 1) ∧
    declared_range (init_input_calls dev) ABS_HAT0Y = some (-1, 1) ∧
    ∃ evs, gip_wheel_op_input client data len = some (0, client.logged evs) ∧
      ∀ d axis v, ext_call.input_event d EV_ABS axis v ∈ evs →
        ((axis = ABS_X ∨ axis = ABS_HAT0X ∨ axis = ABS_HAT0Y) ∧
            in_declared_range dev axis v = true) ∨
        ((axis = ABS_Y ∧ v = le16_word data 4 ∨ axis = ABS_Z ∧ v = le16_word data 6 ∨
            axis = ABS_RZ ∧ v = le16_word data 8) ∧
          0 ≤ v ∧ v ≤ 65535 ∧ (in_declared_range dev axis v = true ↔ v ≤ 1023)) := by
  obtain ⟨hx, hy, hz, hrz, hhx, hhy⟩ := declared_range_init dev
  refine ⟨hx,
      hy, hz, hrz, hhx, hhy, _, op_input_frame client wheel dev data len hw hd hlen hmax hbuf, ?_⟩
  intro d axis v hmem
  have b2 := le16_word_le data 2
  have b4 := le16_word_le data 4
  have b6 := le16_word_le data 6
  have b8 := le16_word_le data 8
  have c8 := bit_of_cases (le16_word data 0) 8
  have c9 := bit_of_cases (le16_word data 0) 9
  have c10 := bit_of_cases (le16_word data 0) 10
  have c11 := bit_of_cases (le16_word data 0) 11
  simp only [report_calls, List.mem_cons, ext_call.input_event.injEq, List.mem_singleton,
    List.not_mem_nil, or_false] at hmem
  simp only [EV_KEY, EV_ABS, EV_SYN] at hmem
  rcases hmem with h | h | h | h | h | h | h | h | h | h | h | h | h | h | h
  all_goals first
    | (exfalso; omega)
    | (obtain ⟨-, -, rfl, rfl⟩ := h
       simp only [in_declared_range, hx, hy, hz, hrz, hhx, hhy]
       simp [ABS_X, ABS_Y, ABS_Z, ABS_RZ, ABS_HAT0X, ABS_HAT0Y]
       omega)

/-- Witness of C2 (amended): the accelerator-saturated frame on `client0`. -/
theorem op_input_abs_ranges_witness :
    declared_range (init_input_calls 7) ABS_X = some (0, 65535) ∧
    declared_range (init_input_calls 7) ABS_Y = some (0, 1023) ∧
    declared_range (init_input_calls 7) ABS_Z = some (0, 1023) ∧
    declared_range (init_input_calls 7) ABS_RZ = some (0, 1023) ∧
    declared_range (init_input_calls 7) ABS_HAT0X = some (-1, 1) ∧
    declared_range (init_input_calls 7) ABS_HAT0Y = some (-1, 1) ∧
    ∃ evs, gip_wheel_op_input client0 frame_full_accelerator 10 =
        some (0, client0.logged evs) ∧
      ∀ d axis v, ext_call.input_event d EV_ABS axis v ∈ evs →
        ((axis = ABS_X ∨ axis = ABS_HAT0X ∨ axis = ABS_HAT0Y) ∧
            in_declared_range 7 axis v = true) ∨
        ((axis = ABS_Y ∧ v = le16_word frame_full_accelerator 4 ∨
            axis = ABS_Z ∧ v = le16_word frame_full_accelerator 6 ∨
            axis = ABS_RZ ∧ v = le16_word frame_full_accelerator 8) ∧
          0 ≤ v ∧ v ≤ 65535 ∧ (in_declared_range 7 axis v = true ↔ v ≤ 1023)) :=
  op_input_abs_ranges client0 { client := some 1, led := ⟨true⟩, input := ⟨some 7⟩ } 7
    frame_full_accelerator 10 rfl rfl (by decide) (by decide) (by decide)

/-- C3: for every accepted frame exactly one `ABS_HAT0X` and one `ABS_HAT0Y`
event are emitted; `ABS_HAT0X` is bit 11 (right) minus bit 10 (left) of the
buttons word and `ABS_HAT0Y` is bit 9 (down) minus bit 8 (up), each bit taken
as 0 or 1, which is the hat table of the specification: `(1,0)` gives `-1`,
`(0,1)` gives `+1`, `(0,0)` and `(1,1)` give `0`. -/
theorem op_input_hat_values (client : gip_client) (wheel : gip_wheel) (dev : Nat)
    (data : List u8) (len : Int)
    (hw : client.drvdata = some wheel) (hd : wheel.input.dev = some dev)
    (hlen : 10 ≤ len) (hmax : len ≤ INT_MAX) (hbuf : len ≤ data.length) :
    ∃ evs hx hy, gip_wheel_op_input client data len = some (0, client.logged evs) ∧
      evs.filter (is_event EV_ABS ABS_HAT0X) = [.input_event dev EV_ABS ABS_HAT0X hx] ∧
      evs.filter (is_event EV_ABS ABS_HAT0Y) = [.input_event dev EV_ABS ABS_HAT0Y hy] ∧
      hx = (if (le16_word data 0).testBit 11 then 1 else 0) -
           (if (le16_word data 0).testBit 10 then 1 else 0) ∧
      hy = (if (le16_word data 0).testBit 9 then 1 else 0) -
           (if (le16_word data 0).testBit 8 then 1 else 0) ∧
      hx = hat_table ((le16_word data 0).testBit 10) ((le16_word data 0).testBit 11) ∧
      hy = hat_table ((le16_word data 0).testBit 8) ((le16_word data 0).testBit 9) := by
  refine ⟨_, _, _, op_input_frame client wheel dev data len hw hd hlen hmax hbuf,
    ?_, ?_, rfl, rfl, ?_, ?_⟩
  · simp [report_calls, is_event, EV_KEY, EV_ABS, EV_SYN, ABS_X, ABS_Y, ABS_Z, ABS_RZ,
      ABS_HAT0X, ABS_HAT0Y, List.filter, bit_of]
  · simp [report_calls, is_event, EV_KEY, EV_ABS, EV_SYN, ABS_X, ABS_Y, ABS_Z, ABS_RZ,
      ABS_HAT0X, ABS_HAT0Y, List.filter, bit_of]
  · cases (le16_word data 0).testBit 10 <;> cases (le16_word data 0).testBit 11 <;>
      simp [bit_of, hat_table]
  · cases (le16_word data 0).testBit 8 <;> cases (le16_word data 0).testBit 9 <;>
      simp [bit_of, hat_table]

/-- Witness of C3: the d-pad-up frame on `client0`. -/
theorem op_input_hat_values_witness :
    ∃ evs hx hy, gip_wheel_op_input client0 frame_dpad_up 10 = some (0, client0.logged evs) ∧
      evs.filter (is_event EV_ABS ABS_HAT0X) = [.input_event 7 EV_ABS ABS_HAT0X hx] ∧
      evs.filter (is_event EV_ABS ABS_HAT0Y) = [.input_event 7 EV_ABS ABS_HAT0Y hy] ∧
      hx = (if (le16_word frame_dpad_up 0).testBit 11 then 1 else 0) -
           (if (le16_word frame_dpad_up 0).testBit 10 then 1 else 0) ∧
      hy = (if (le16_word frame_dpad_up 0).testBit 9 then 1 else 0) -
           (if (le16_word frame_dpad_up 0).testBit 8 then 1 else 0) ∧
      hx = hat_table ((le16_word frame_dpad_up 0).testBit 10)
        ((le16_word frame_dpad_up 0).testBit 11) ∧
      hy = hat_table ((le16_word frame_dpad_up 0).testBit 8)
        ((le16_word frame_dpad_up 0).testBit 9) :=
  op_input_hat_values client0 { client := some 1, led := ⟨true⟩, input := ⟨some 7⟩ } 7
    frame_dpad_up 10 rfl rfl (by decide) (by decide) (by decide)

/-- C4: for every accepted frame and each of the eight exposed buttons
(menu = bit 2 as `BTN_START`, view = bit 3 as `BTN_SELECT`, A = bit 4,
B = bit 5, X = bit 6, Y = bit 7, bumper-left = bit 12 as `BTN_TL`,
bumper-right = bit 13 as `BTN_TR`) exactly one key event is emitted for that
button, and its value is 1 (pressed) if the button's bit of the little-endian
buttons word is set and 0 (released) otherwise, whatever the other bits are. -/
theorem op_input_button_levels (client : gip_client) (wheel : gip_wheel) (dev : Nat)
    (data : List u8) (len : Int)
    (hw : client.drvdata = some wheel) (hd : wheel.input.dev = some dev)
    (hlen : 10 ≤ len) (hmax : len ≤ INT_MAX) (hbuf : len ≤ data.length) :
    wheel_buttons = [(2, BTN_START), (3, BTN_SELECT), (4, BTN_A), (5, BTN_B), (6, BTN_X),
      (7, BTN_Y), (12, BTN_TL), (13, BTN_TR)] ∧
    ∃ evs, gip_wheel_op_input client data len = some (0, client.logged evs) ∧
      ∀ p ∈ wheel_buttons,
        evs.filter (is_event EV_KEY p.2) =
          [.input_event dev EV_KEY p.2
            (if (byte_at data 0 + 256 * byte_at data 1).testBit p.1 then 1 else 0)] := by
  refine ⟨rfl, _, op_input_frame client wheel dev data len hw hd hlen hmax hbuf, ?_⟩
  intro p hp
  simp only [wheel_buttons, List.mem_cons, List.mem_singleton, List.not_mem_nil, or_false] at hp
  rcases hp with h | h | h | h | h | h | h | h <;> subst h <;>
    simp [report_calls, is_event, EV_KEY, EV_ABS, EV_SYN, BTN_START, BTN_SELECT, BTN_A, BTN_B,
      BTN_X, BTN_Y, BTN_TL, BTN_TR, List.filter, bit_of, le16_word]

/-- Witness of C4: the frame with the A and B bits set, on `client0`. -/
theorem op_input_button_levels_witness :
    wheel_buttons = [(2, BTN_START), (3, BTN_SELECT), (4, BTN_A), (5, BTN_B), (6, BTN_X),
      (7, BTN_Y), (12, BTN_TL), (13, BTN_TR)] ∧
    ∃ evs, gip_wheel_op_input client0 frame_a_b 10 = some (0, client0.logged evs) ∧
      ∀ p ∈ wheel_buttons,
        evs.filter (is_event EV_KEY p.2) =
          [.input_event 7 EV_KEY p.2
            (if (byte_at frame_a_b 0 + 256 * byte_at frame_a_b 1).testBit p.1 then 1 else 0)] :=
  op_input_button_levels client0 { client := some 1, led := ⟨true⟩, input := ⟨some 7⟩ } 7
    frame_a_b 10 rfl rfl (by decide) (by decide) (by decide)

/-- C5, counterexample: the frame whose buttons word has exactly one mapped
bit set, d-pad up (bit 8), is accepted and no pressed-button event is emitted
at all, where the claim promises exactly one. -/
theorem op_input_dpad_up_no_pressed_key :
    (∀ j, 2 ≤ j → j ≤ 13 → ((le16_word frame_dpad_up 0).testBit j = true ↔ j = 8)) ∧
    ∃ evs, gip_wheel_op_input client0 frame_dpad_up 10 = some (0, client0.logged evs) ∧
      evs.filter (is_key_with 1) = [] := by
  refine ⟨?_, report_calls 7 256 0 0 0 0, by decide, by decide⟩
  intro j h2 h13
  interval_cases j <;> decide

/-- C5, amended: for every accepted frame whose buttons word has exactly one of
the twelve mapped bits (2..13) set, bit `k`: if `k` is one of the eight exposed
buttons, exactly one pressed key event is emitted, for the key that bit maps
to, and the seven other buttons are reported released; if `k` is one of the
four d-pad bits (8..11), no pressed key event is emitted, all eight buttons are
reported released, and the direction is reported on the hat axis (up and left
as `-1`, down and right as `+1`). -/
theorem op_input_single_bit (client : gip_client) (wheel : gip_wheel) (dev : Nat)
    (data : List u8) (len : Int) (k : Nat)
    (hw : client.drvdata = some wheel) (hd : wheel.input.dev = some dev)
    (hlen : 10 ≤ len) (hmax : len ≤ INT_MAX) (hbuf : len ≤ data.length)
    (hk2 : 2 ≤ k) (hk13 : k ≤ 13)
    (hone : ∀ j, 2 ≤ j → j ≤ 13 → ((le16_word data 0).testBit j = true ↔ j = k)) :
    ∃ evs, gip_wheel_op_input client data len = some (0, client.logged evs) ∧
      evs.filter (is_key_with 1) =
        (key_of_bit k).toList.map (fun code => .input_event dev EV_KEY code 1) ∧
      evs.filter (is_key_with 0) =
        (wheel_buttons.filter (fun p => p.1 != k)).map
          (fun p => .input_event dev EV_KEY p.2 0) ∧
      (key_of_bit k = none ↔ k = 8 ∨ k = 9 ∨ k = 10 ∨ k = 11) ∧
      (k = 8 → ext_call.input_event dev EV_ABS ABS_HAT0Y (-1) ∈ evs) ∧
      (k = 9 → ext_call.input_event dev EV_ABS ABS_HAT0Y 1 ∈ evs) ∧
      (k = 10 → ext_call.input_event dev EV_ABS ABS_HAT0X (-1) ∈ evs) ∧
      (k = 11 → ext_call.input_event dev EV_ABS ABS_HAT0X 1 ∈ evs) := by
  refine ⟨_, op_input_frame client wheel dev data len hw hd hlen hmax hbuf, ?_⟩
  have t2 := hone 2 (by omega) (by omega)
  have t3 := hone 3 (by omega) (by omega)
  have t4 := hone 4 (by omega) (by omega)
  have t5 := hone 5 (by omega) (by omega)
  have t6 := hone 6 (by omega) (by omega)
  have t7 := hone 7 (by omega) (by omega)
  have t8 := hone 8 (by omega) (by omega)
  have t9 := hone 9 (by omega) (by omega)
  have t10 := hone 10 (by omega) (by omega)
  have t11 := hone 11 (by omega) (by omega)
  have t12 := hone 12 (by omega) (by omega)
  have t13 := hone 13 (by omega) (by omega)
  clear hone
  interval_cases k <;>
    simp at t2 t3 t4 t5 t6 t7 t8 t9 t10 t11 t12 t13 <;>
    simp [report_calls, bit_of, is_key_with, key_of_bit, wheel_buttons, List.filter, List.find?,
      EV_KEY, EV_ABS, EV_SYN, t2, t3, t4, t5, t6, t7, t8, t9, t10, t11, t12, t13]

/-- Witness of C5 (amended): the d-pad-up frame on `client0`, `k = 8`. -/
theorem op_input_single_bit_witness :
    ∃ evs, gip_wheel_op_input client0 frame_dpad_up 10 = some (0, client0.logged evs) ∧
      evs.filter (is_key_with 1) =
        (key_of_bit 8).toList.map (fun code => .input_event 7 EV_KEY code 1) ∧
      evs.filter (is_key_with 0) =
        (wheel_buttons.filter (fun p => p.1 != 8)).map
          (fun p => .input_event 7 EV_KEY p.2 0) ∧
      (key_of_bit 8 = none ↔ 8 = 8 ∨ 8 = 9 ∨ 8 = 10 ∨ 8 = 11) ∧
      (8 = 8 → ext_call.input_event 7 EV_ABS ABS_HAT0Y (-1) ∈ evs) ∧
      (8 = 9 → ext_call.input_event 7 EV_ABS ABS_HAT0Y 1 ∈ evs) ∧
      (8 = 10 → ext_call.input_event 7 EV_ABS ABS_HAT0X (-1) ∈ evs) ∧
      (8 = 11 → ext_call.input_event 7 EV_ABS ABS_HAT0X 1 ∈ evs) :=
  op_input_single_bit client0 { client := some 1, led := ⟨true⟩, input := ⟨some 7⟩ } 7
    frame_dpad_up 10 8 rfl rfl (by decide) (by decide) (by decide) (by decide) (by decide)
    (by intro j h2 h13; interval_cases j <;> decide)

/-- C6: for every accepted frame the emitted sequence is the eight key events,
then the four linear-axis events (steering, accelerator, brake, clutch), then
the two hat-axis events, then one synchronization marker, which is the last
event; no synchronization marker occurs before it. -/
theorem op_input_event_order (client : gip_client) (wheel : gip_wheel) (dev : Nat)
    (data : List u8) (len : Int)
    (hw : client.drvdata = some wheel) (hd : wheel.input.dev = some dev)
    (hlen : 10 ≤ len) (hmax : len ≤ INT_MAX) (hbuf : len ≤ data.length) :
    ∃ keys linear hats,
      gip_wheel_op_input client data len =
        some (0, client.logged
          (keys ++ linear ++ hats ++ [.input_event dev EV_SYN SYN_REPORT 0])) ∧
      keys.map event_kind =
        [some (EV_KEY, BTN_START), some (EV_KEY, BTN_SELECT), some (EV_KEY, BTN_A),
         some (EV_KEY, BTN_B), some (EV_KEY, BTN_X), some (EV_KEY, BTN_Y),
         some (EV_KEY, BTN_TL), some (EV_KEY, BTN_TR)] ∧
      linear.map event_kind =
        [some (EV_ABS, ABS_X), some (EV_ABS, ABS_Y), some (EV_ABS, ABS_Z),
         some (EV_ABS, ABS_RZ)] ∧
      hats.map event_kind = [some (EV_ABS, ABS_HAT0X), some (EV_ABS, ABS_HAT0Y)] ∧
      ∀ e ∈ keys ++ linear ++ hats, event_kind e ≠ some (EV_SYN, SYN_REPORT) := by
  refine ⟨(report_calls dev (le16_word data 0) (le16_word data 2) (le16_word data 4)
      (le16_word data 6) (le16_word data 8)).take 8,
    ((report_calls dev (le16_word data 0) (le16_word data 2) (le16_word data 4)
      (le16_word data 6) (le16_word data 8)).drop 8).take 4,
    ((report_calls dev (le16_word data 0) (le16_word data 2) (le16_word data 4)
      (le16_word data 6) (le16_word data 8)).drop 12).take 2, ?_, ?_, ?_, ?_, ?_⟩
  · rw [op_input_frame client wheel dev data len hw hd hlen hmax hbuf]
    simp [report_calls]
  · simp [report_calls, event_kind]
  · simp [report_calls, event_kind]
  · simp [report_calls, event_kind]
  · simp [report_calls, event_kind, EV_KEY, EV_ABS, EV_SYN]

/-- Witness of C6: the frame with the A and B bits set, on `client0`. -/
theorem op_input_event_order_witness :
    ∃ keys linear hats,
      gip_wheel_op_input client0 frame_a_b 10 =
        some (0, client0.logged
          (keys ++ linear ++ hats ++ [.input_event 7 EV_SYN SYN_REPORT 0])) ∧
      keys.map event_kind =
        [some (EV_KEY, BTN_START), some (EV_KEY, BTN_SELECT), some (EV_KEY, BTN_A),
         some (EV_KEY, BTN_B), some (EV_KEY, BTN_X), some (EV_KEY, BTN_Y),
         some (EV_KEY, BTN_TL), some (EV_KEY, BTN_TR)] ∧
      linear.map event_kind =
        [some (EV_ABS, ABS_X), some (EV_ABS, ABS_Y), some (EV_ABS, ABS_Z),
         some (EV_ABS, ABS_RZ)] ∧
      hats.map event_kind = [some (EV_ABS, ABS_HAT0X), some (EV_ABS, ABS_HAT0Y)] ∧
      ∀ e ∈ keys ++ linear ++ hats, event_kind e ≠ some (EV_SYN, SYN_REPORT) :=
  op_input_event_order client0 { client := some 1, led := ⟨true⟩, input := ⟨some 7⟩ } 7
    frame_a_b 10 rfl rfl (by decide) (by decide) (by decide)

/-- C7: an accepted report `b` is read as five little-endian unsigned 16-bit
fields without padding: the key and hat events are the bits of
`buttons = b[0] + 256*b[1]`, and `ABS_X = b[2] + 256*b[3]`,
`ABS_Y = b[4] + 256*b[5]`, `ABS_Z = b[6] + 256*b[7]`,
`ABS_RZ = b[8] + 256*b[9]`; bytes after the tenth are not used. -/
theorem op_input_little_endian (client : gip_client) (wheel : gip_wheel) (dev : Nat)
    (b0 b1 b2 b3 b4 b5 b6 b7 b8 b9 : u8) (rest : List u8) (len : Int)
    (hw : client.drvdata = some wheel) (hd : wheel.input.dev = some dev)
    (hlen : 10 ≤ len) (hmax : len ≤ INT_MAX)
    (hbuf : len ≤ (b0 :: b1 :: b2 :: b3 :: b4 :: b5 :: b6 :: b7 :: b8 :: b9 :: rest).length) :
    gip_wheel_op_input client
        (b0 :: b1 :: b2 :: b3 :: b4 :: b5 :: b6 :: b7 :: b8 :: b9 :: rest) len =
      some (0, client.logged
        [ .input_event dev EV_KEY BTN_START
            (if (b0.val + 256 * b1.val).testBit 2 then 1 else 0),
          .input_event dev EV_KEY BTN_SELECT
            (if (b0.val + 256 * b1.val).testBit 3 then 1 else 0),
          .input_event dev EV_KEY BTN_A (if (b0.val + 256 * b1.val).testBit 4 then 1 else 0),
          .input_event dev EV_KEY BTN_B (if (b0.val + 256 * b1.val).testBit 5 then 1 else 0),
          .input_event dev EV_KEY BTN_X (if (b0.val + 256 * b1.val).testBit 6 then 1 else 0),
          .input_event dev EV_KEY BTN_Y (if (b0.val + 256 * b1.val).testBit 7 then 1 else 0),
          .input_event dev EV_KEY BTN_TL (if (b0.val + 256 * b1.val).testBit 12 then 1 else 0),
          .input_event dev EV_KEY BTN_TR (if (b0.val + 256 * b1.val).testBit 13 then 1 else 0),
          .input_event dev EV_ABS ABS_X ((b2.val + 256 * b3.val : Nat) : Int),
          .input_event dev EV_ABS ABS_Y ((b4.val + 256 * b5.val : Nat) : Int),
          .input_event dev EV_ABS ABS_Z ((b6.val + 256 * b7.val : Nat) : Int),
          .input_event dev EV_ABS ABS_RZ ((b8.val + 256 * b9.val : Nat) : Int),
          .input_event dev EV_ABS ABS_HAT0X
            ((if (b0.val + 256 * b1.val).testBit 11 then 1 else 0) -
              (if (b0.val + 256 * b1.val).testBit 10 then 1 else 0)),
          .input_event dev EV_ABS ABS_HAT0Y
            ((if (b0.val + 256 * b1.val).testBit 9 then 1 else 0) -
              (if (b0.val + 256 * b1.val).testBit 8 then 1 else 0)),
          .input_event dev EV_SYN SYN_REPORT 0 ]) := by
  rw [op_input_frame client wheel dev _ len hw hd hlen hmax hbuf]
  rfl

/-- Witness of C7: the bytes `01 02 .. 0a` followed by one more byte, with
`len = 11`, on `client0`. -/
theorem op_input_little_endian_witness :
    gip_wheel_op_input client0 [1, 2, 3, 4, 5, 6, 7, 8, 9, 10, 11] 11 =
      some (0, client0.logged
        [ .input_event 7 EV_KEY BTN_START
            (if (((1 : u8)).val + 256 * ((2 : u8)).val).testBit 2 then 1 else 0),
          .input_event 7 EV_KEY BTN_SELECT
            (if (((1 : u8)).val + 256 * ((2 : u8)).val).testBit 3 then 1 else 0),
          .input_event 7 EV_KEY BTN_A
            (if (((1 : u8)).val + 256 * ((2 : u8)).val).testBit 4 then 1 else 0),
          .input_event 7 EV_KEY BTN_B
            (if (((1 : u8)).val + 256 * ((2 : u8)).val).testBit 5 then 1 else 0),
          .input_event 7 EV_KEY BTN_X
            (if (((1 : u8)).val + 256 * ((2 : u8)).val).testBit 6 then 1 else 0),
          .input_event 7 EV_KEY BTN_Y
            (if (((1 : u8)).val + 256 * ((2 : u8)).val).testBit 7 then 1 else 0),
          .input_event 7 EV_KEY BTN_TL
            (if (((1 : u8)).val + 256 * ((2 : u8)).val).testBit 12 then 1 else 0),
          .input_event 7 EV_KEY BTN_TR
            (if (((1 : u8)).val + 256 * ((2 : u8)).val).testBit 13 then 1 else 0),
          .input_event 7 EV_ABS ABS_X ((((3 : u8)).val + 256 * ((4 : u8)).val : Nat) : Int),
          .input_event 7 EV_ABS ABS_Y ((((5 : u8)).val + 256 * ((6 : u8)).val : Nat) : Int),
          .input_event 7 EV_ABS ABS_Z ((((7 : u8)).val + 256 * ((8 : u8)).val : Nat) : Int),
          .input_event 7 EV_ABS ABS_RZ ((((9 : u8)).val + 256 * ((10 : u8)).val : Nat) : Int),
          .input_event 7 EV_ABS ABS_HAT0X
            ((if (((1 : u8)).val + 256 * ((2 : u8)).val).testBit 11 then 1 else 0) -
              (if (((1 : u8)).val + 256 * ((2 : u8)).val).testBit 10 then 1 else 0)),
          .input_event 7 EV_ABS ABS_HAT0Y
            ((if (((1 : u8)).val + 256 * ((2 : u8)).val).testBit 9 then 1 else 0) -
              (if (((1 : u8)).val + 256 * ((2 : u8)).val).testBit 8 then 1 else 0)),
          .input_event 7 EV_SYN SYN_REPORT 0 ]) :=
  op_input_little_endian client0 { client := some 1, led := ⟨true⟩, input := ⟨some 7⟩ } 7
    1 2 3 4 5 6 7 8 9 10 [11] 11 rfl rfl (by decide) (by decide) (by decide)

/-- C8: the ten-byte report `30 00 00 00 00 00 00 00 00 00` (`buttons = 0x0030`,
every axis field zero) is accepted: `0` is returned and exactly these events
are emitted: `BTN_A` and `BTN_B` pressed, `BTN_START`, `BTN_SELECT`, `BTN_X`,
`BTN_Y`, `BTN_TL`, `BTN_TR` released, `ABS_X`, `ABS_Y`, `ABS_Z`, `ABS_RZ`,
`ABS_HAT0X`, `ABS_HAT0Y` all `0`, and one synchronization marker. -/
theorem op_input_a_b_example (client : gip_client) (wheel : gip_wheel) (dev : Nat)
    (hw : client.drvdata = some wheel) (hd : wheel.input.dev = some dev) :
    frame_a_b = [0x30, 0, 0, 0, 0, 0, 0, 0, 0, 0] ∧
    gip_wheel_op_input client frame_a_b 10 =
      some (0, client.logged
        [ .input_event dev EV_KEY BTN_START 0, .input_event dev EV_KEY BTN_SELECT 0,
          .input_event dev EV_KEY BTN_A 1, .input_event dev EV_KEY BTN_B 1,
          .input_event dev EV_KEY BTN_X 0, .input_event dev EV_KEY BTN_Y 0,
          .input_event dev EV_KEY BTN_TL 0, .input_event dev EV_KEY BTN_TR 0,
          .input_event dev EV_ABS ABS_X 0, .input_event dev EV_ABS ABS_Y 0,
          .input_event dev EV_ABS ABS_Z 0, .input_event dev EV_ABS ABS_RZ 0,
          .input_event dev EV_ABS ABS_HAT0X 0, .input_event dev EV_ABS ABS_HAT0Y 0,
          .input_event dev EV_SYN SYN_REPORT 0 ]) := by
  refine ⟨rfl, ?_⟩
  rw [op_input_frame client wheel dev frame_a_b 10 hw hd (by decide) (by decide) (by decide)]
  rfl

/-- Witness of C8: the example frame on `client0`. -/
theorem op_input_a_b_example_witness :
    frame_a_b = [0x30, 0, 0, 0, 0, 0, 0, 0, 0, 0] ∧
    gip_wheel_op_input client0 frame_a_b 10 =
      some (0, client0.logged
        [ .input_event 7 EV_KEY BTN_START 0, .input_event 7 EV_KEY BTN_SELECT 0,
          .input_event 7 EV_KEY BTN_A 1, .input_event 7 EV_KEY BTN_B 1,
          .input_event 7 EV_KEY BTN_X 0, .input_event 7 EV_KEY BTN_Y 0,
          .input_event 7 EV_KEY BTN_TL 0, .input_event 7 EV_KEY BTN_TR 0,
          .input_event 7 EV_ABS ABS_X 0, .input_event 7 EV_ABS ABS_Y 0,
          .input_event 7 EV_ABS ABS_Z 0, .input_event 7 EV_ABS ABS_RZ 0,
          .input_event 7 EV_ABS ABS_HAT0X 0, .input_event 7 EV_ABS ABS_HAT0Y 0,
          .input_event 7 EV_SYN SYN_REPORT 0 ]) :=
  op_input_a_b_example client0 { client := some 1, led := ⟨true⟩, input := ⟨some 7⟩ } 7
    rfl rfl

/-- C9: whatever the external steps return, `gip_wheel_probe` returns a value;
if a step fails (context allocation, `gip_init_input`, input device
registration, `gip_set_power_mode`, `gip_init_led`,
`gip_complete_authentication`) after all earlier ones succeeded, probe returns
exactly that step's error code (`-ENOMEM` for the allocation), the steps it
invoked are the earlier ones followed by the failed one, so the failed step was
invoked once and no later step was invoked; and probe returns `0` if and only
if every step succeeded. -/
theorem probe_error_propagation (env : probe_env) (client : gip_client) :
    ∃ ret client' evs, gip_wheel_probe env client = some (ret, client') ∧
      client'.calls = client.calls ++ evs ∧
      (∀ pre s post, probe_order = pre ++ s :: post →
          (∀ t ∈ pre, step_error env t = 0) → step_error env s ≠ 0 →
          ret = step_error env s ∧ evs.filterMap step_of_call = pre ++ [s] ∧
          (evs.filterMap step_of_call).count s = 1 ∧
          ∀ t ∈ post, t ∉ evs.filterMap step_of_call) ∧
      ((∀ t ∈ probe_order, step_error env t = 0) →
          evs.filterMap step_of_call = probe_order) ∧
      (ret = 0 ↔ ∀ t ∈ probe_order, step_error env t = 0) := by
  obtain ⟨client', evs, hrun, hcalls, hsteps⟩ := probe_steps env client
  refine ⟨_, client', evs, hrun, hcalls, ?_, ?_, first_error_eq_zero_iff env probe_order⟩
  · intro pre s post hsplit hpre hs
    have h := steps_until_failure_split env pre s post hpre hs
    rw [← hsplit] at h
    have hnd : (pre ++ s :: post).Nodup := by rw [← hsplit]; decide
    have hnd1 : (pre ++ [s]).Nodup :=
      hnd.sublist (List.Sublist.append (List.Sublist.refl pre)
        (List.Sublist.cons₂ s (List.nil_sublist post)))
    rw [hsteps, h.1]
    refine ⟨h.2, rfl, List.count_eq_one_of_mem hnd1 (by simp), ?_⟩
    intro t ht hmem
    obtain ⟨-, hsp, hdis⟩ := List.nodup_append.1 hnd
    rcases List.mem_append.1 hmem with hp | hp
    · exact hdis hp (List.mem_cons_of_mem s ht)
    · have hts : t = s := by simpa using hp
      subst hts
      exact (List.nodup_cons.1 hsp).1 ht
  · intro hall
    rw [hsteps]
    exact (steps_until_failure_all env probe_order hall).1

/-- C10: in every run of `gip_wheel_probe` the recorded calls follow the
lifecycle of the specification: the capabilities are declared and the input
device registered (the capability declarations come right before the
registration), then the power-on command is issued, always with `GIP_PWR_ON`,
then the LED is initialised, then authentication completion is signalled; a
step is taken only in the state its predecessors' success leads to, nothing
follows a failed step but the error message, so the states passed through are
an initial segment of `Uninitialized, InputRegistered, PoweredOn, LedReady,
Active`, and the whole sequence exactly when probe returns `0`. -/
theorem probe_lifecycle_order (env : probe_env) (client : gip_client) :
    ∃ ret client' evs path, gip_wheel_probe env client = some (ret, client') ∧
      client'.calls = client.calls ++ evs ∧
      lifecycle_path .Uninitialized evs = some path ∧
      path <+: lifecycle_order ∧
      (ret = 0 ↔ path = lifecycle_order) ∧
      (∀ mode r, ext_call.gip_set_power_mode mode r ∈ evs → mode = .GIP_PWR_ON) ∧
      (∀ d r, ext_call.input_register_device d r ∈ evs →
        ∃ before after, evs =
          before ++ capability_calls d ++ .input_register_device d r :: after) := by
  obtain ⟨r1, r2, r3, r4, r5, r6, r7⟩ := probe_runs env client
  by_cases h1 : env.kzalloc_ok = true
  swap
  · have h1 : env.kzalloc_ok = false := by simpa using h1
    refine ⟨-ENOMEM, client.logged [.devm_kzalloc false],
      [.devm_kzalloc false],
      [.Uninitialized], r1 h1, ?_, ?_, ?_, ?_, ?_, ?_⟩
    · simp [gip_client.logged, dev_set_drvdata]
    · simp [lifecycle_path, lifecycle_step, capability_calls, after_halt, lifecycle_order, h1]
    · simp [lifecycle_order]
    · simp [lifecycle_order, h1, ENOMEM]
    · intro mode r hmem
      simp [capability_calls] at hmem
    · intro d r hmem
      simp at hmem
  by_cases h2 : env.init_input = 0
  swap
  · refine ⟨env.init_input,
        client.logged [.devm_kzalloc true, .gip_init_input GIP_WL_NAME env.init_input],
      [.devm_kzalloc true, .gip_init_input GIP_WL_NAME env.init_input],
      [.Uninitialized], r2 h1 h2, ?_, ?_, ?_, ?_, ?_, ?_⟩
    · simp [gip_client.logged, dev_set_drvdata]
    · simp [lifecycle_path, lifecycle_step, capability_calls, after_halt, lifecycle_order, h1, h2]
    · simp [lifecycle_order]
    · simp [lifecycle_order, h1, h2, ENOMEM]
    · intro mode r hmem
      simp [capability_calls] at hmem
    · intro d r hmem
      simp at hmem
  by_cases h3 : env.register_device = 0
  swap
  · refine ⟨env.register_device,
        client.logged ([.devm_kzalloc true, .gip_init_input GIP_WL_NAME 0] ++
        capability_calls env.input_dev ++
        [.input_register_device env.input_dev env.register_device,
         .dev_err env.register_device]),
      ([.devm_kzalloc true, .gip_init_input GIP_WL_NAME 0] ++
        capability_calls env.input_dev ++
        [.input_register_device env.input_dev env.register_device,
         .dev_err env.register_device]),
      [.Uninitialized], r3 h1 h2 h3, ?_, ?_, ?_, ?_, ?_, ?_⟩
    · simp [gip_client.logged, dev_set_drvdata]
    · simp [lifecycle_path, lifecycle_step, capability_calls, after_halt, lifecycle_order, h1, h2,
        h3]
    · simp [lifecycle_order]
    · simp [lifecycle_order, h1, h2, h3, ENOMEM]
    · intro mode r hmem
      simp [capability_calls] at hmem
    · intro d r hmem
      simp [capability_calls] at hmem
      obtain ⟨rfl, rfl⟩ := hmem
      exact ⟨[.devm_kzalloc true, .gip_init_input GIP_WL_NAME 0],
        [.dev_err env.register_device], by simp⟩
  by_cases h4 : env.set_power_mode = 0
  swap
  · refine ⟨env.set_power_mode,
        client.logged ([.devm_kzalloc true, .gip_init_input GIP_WL_NAME 0] ++
        capability_calls env.input_dev ++
        [.input_register_device env.input_dev 0,
         .gip_set_power_mode .GIP_PWR_ON env.set_power_mode]),
      ([.devm_kzalloc true, .gip_init_input GIP_WL_NAME 0] ++
        capability_calls env.input_dev ++
        [.input_register_device env.input_dev 0,
         .gip_set_power_mode .GIP_PWR_ON env.set_power_mode]),
      [.Uninitialized, .InputRegistered], r4 h1 h2 h3 h4, ?_, ?_, ?_, ?_, ?_, ?_⟩
    · simp [gip_client.logged, dev_set_drvdata]
    · simp [lifecycle_path, lifecycle_step, capability_calls, after_halt, lifecycle_order, h1, h2,
        h3, h4]
    · simp [lifecycle_order]
    · simp [lifecycle_order, h1, h2, h3, h4, ENOMEM]
    · intro mode r hmem
      simp [capability_calls] at hmem
      exact hmem.1
    · intro d r hmem
      simp [capability_calls] at hmem
      obtain ⟨rfl, rfl⟩ := hmem
      exact ⟨[.devm_kzalloc true, .gip_init_input GIP_WL_NAME 0],
        [.gip_set_power_mode .GIP_PWR_ON env.set_power_mode], by simp⟩
  by_cases h5 : env.init_led = 0
  swap
  · refine ⟨env.init_led, client.logged ([.devm_kzalloc true, .gip_init_input GIP_WL_NAME 0] ++
        capability_calls env.input_dev ++
        [.input_register_device env.input_dev 0, .gip_set_power_mode .GIP_PWR_ON 0,
         .gip_init_led env.init_led]),
      ([.devm_kzalloc true, .gip_init_input GIP_WL_NAME 0] ++
        capability_calls env.input_dev ++
        [.input_register_device env.input_dev 0, .gip_set_power_mode .GIP_PWR_ON 0,
         .gip_init_led env.init_led]),
      [.Uninitialized, .InputRegistered, .PoweredOn], r5 h1 h2 h3 h4 h5, ?_, ?_, ?_, ?_, ?_, ?_⟩
    · simp [gip_client.logged, dev_set_drvdata]
    · simp [lifecycle_path, lifecycle_step, capability_calls, after_halt, lifecycle_order, h1, h2,
        h3, h4, h5]
    · simp [lifecycle_order]
    · simp [lifecycle_order, h1, h2, h3, h4, h5, ENOMEM]
    · intro mode r hmem
      simp [capability_calls] at hmem
      exact hmem.1
    · intro d r hmem
      simp [capability_calls] at hmem
      obtain ⟨rfl, rfl⟩ := hmem
      exact ⟨[.devm_kzalloc true, .gip_init_input GIP_WL_NAME 0],
        [.gip_set_power_mode .GIP_PWR_ON 0, .gip_init_led env.init_led], by simp⟩
  by_cases h6 : env.complete_authentication = 0
  swap
  · refine ⟨env.complete_authentication,
        client.logged ([.devm_kzalloc true, .gip_init_input GIP_WL_NAME 0] ++
        capability_calls env.input_dev ++
        [.input_register_device env.input_dev 0, .gip_set_power_mode .GIP_PWR_ON 0,
         .gip_init_led 0, .gip_complete_authentication env.complete_authentication]),
      ([.devm_kzalloc true, .gip_init_input GIP_WL_NAME 0] ++
        capability_calls env.input_dev ++
        [.input_register_device env.input_dev 0, .gip_set_power_mode .GIP_PWR_ON 0,
         .gip_init_led 0, .gip_complete_authentication env.complete_authentication]),
      [.Uninitialized, .InputRegistered, .PoweredOn, .LedReady], r6 h1 h2 h3 h4 h5 h6,
      ?_, ?_, ?_, ?_, ?_, ?_⟩
    · simp [gip_client.logged, dev_set_drvdata]
    · simp [lifecycle_path, lifecycle_step, capability_calls, after_halt, lifecycle_order, h1, h2,
        h3, h4, h5, h6]
    · simp [lifecycle_order]
    · simp [lifecycle_order, h1, h2, h3, h4, h5, h6, ENOMEM]
    · intro mode r hmem
      simp [capability_calls] at hmem
      exact hmem.1
    · intro d r hmem
      simp [capability_calls] at hmem
      obtain ⟨rfl, rfl⟩ := hmem
      exact ⟨[.devm_kzalloc true, .gip_init_input GIP_WL_NAME 0],
        [.gip_set_power_mode .GIP_PWR_ON 0, .gip_init_led 0,
          .gip_complete_authentication env.complete_authentication], by simp⟩
  · refine ⟨0,
        dev_set_drvdata (client.logged ([.devm_kzalloc true, .gip_init_input GIP_WL_NAME 0] ++
        capability_calls env.input_dev ++
        [.input_register_device env.input_dev 0, .gip_set_power_mode .GIP_PWR_ON 0,
         .gip_init_led 0, .gip_complete_authentication 0]))
        (some (probed_wheel env client)),
      ([.devm_kzalloc true, .gip_init_input GIP_WL_NAME 0] ++
        capability_calls env.input_dev ++
        [.input_register_device env.input_dev 0, .gip_set_power_mode .GIP_PWR_ON 0,
         .gip_init_led 0, .gip_complete_authentication 0]),
      lifecycle_order, r7 h1 h2 h3 h4 h5 h6, ?_, ?_, ?_, ?_, ?_, ?_⟩
    · simp [gip_client.logged, dev_set_drvdata]
    · simp [lifecycle_path, lifecycle_step, capability_calls, after_halt, lifecycle_order, h1, h2,
        h3, h4, h5, h6]
    · exact List.prefix_refl _
    · simp
    · intro mode r hmem
      simp [capability_calls] at hmem
      exact hmem.1
    · intro d r hmem
      simp [capability_calls] at hmem
      obtain ⟨rfl, rfl⟩ := hmem
      exact ⟨[.devm_kzalloc true, .gip_init_input GIP_WL_NAME 0],
        [.gip_set_power_mode .GIP_PWR_ON 0, .gip_init_led 0, .gip_complete_authentication 0],
        by simp⟩

/-! ## Attachment of the context by `gip_wheel_probe` -/

/-- What every run of `gip_wheel_probe` does to the driver data: a run that
returns an error leaves it as it was and has recorded no successful
authentication completion; a run that returns `0` has set it to the new wheel,
and the successful authentication completion is the last recorded call. -/
theorem probe_attach (env : probe_env) (client : gip_client) :
    ∃ ret client' evs, gip_wheel_probe env client = some (ret, client') ∧
      client'.calls = client.calls ++ evs ∧
      client'.id = client.id ∧
      (ret ≠ 0 → client'.drvdata = client.drvdata ∧
        ext_call.gip_complete_authentication 0 ∉ evs) ∧
      (ret = 0 → client'.drvdata = some (probed_wheel env client) ∧
        evs.getLast? = some (.gip_complete_authentication 0)) := by
  obtain ⟨r1, r2, r3, r4, r5, r6, r7⟩ := probe_runs env client
  by_cases h1 : env.kzalloc_ok = true
  swap
  · have h1 : env.kzalloc_ok = false := by simpa using h1
    refine ⟨-ENOMEM,
      client.logged [.devm_kzalloc false],
      [.devm_kzalloc false],
      r1 h1, ?_, ?_, ?_, ?_⟩
    · simp [gip_client.logged, dev_set_drvdata]
    · simp [gip_client.logged, dev_set_drvdata]
    · intro _
      simp [gip_client.logged, capability_calls, h1]
    · intro h0
      simp [ENOMEM, h1] at h0
  by_cases h2 : env.init_input = 0
  swap
  · refine ⟨env.init_input,
      client.logged [.devm_kzalloc true, .gip_init_input GIP_WL_NAME env.init_input],
      [.devm_kzalloc true, .gip_init_input GIP_WL_NAME env.init_input],
      r2 h1 h2, ?_, ?_, ?_, ?_⟩
    · simp [gip_client.logged, dev_set_drvdata]
    · simp [gip_client.logged, dev_set_drvdata]
    · intro _
      simp [gip_client.logged, capability_calls, h1, h2]
    · intro h0
      simp [ENOMEM, h1, h2] at h0
  by_cases h3 : env.register_device = 0
  swap
  · refine ⟨env.register_device,
      client.logged ([.devm_kzalloc true, .gip_init_input GIP_WL_NAME 0] ++
        capability_calls env.input_dev ++
        [.input_register_device env.input_dev env.register_device,
         .dev_err env.register_device]),
      ([.devm_kzalloc true, .gip_init_input GIP_WL_NAME 0] ++
        capability_calls env.input_dev ++
        [.input_register_device env.input_dev env.register_device,
         .dev_err env.register_device]),
      r3 h1 h2 h3, ?_, ?_, ?_, ?_⟩
    · simp [gip_client.logged, dev_set_drvdata]
    · simp [gip_client.logged, dev_set_drvdata]
    · intro _
      simp [gip_client.logged, capability_calls, h1, h2, h3]
    · intro h0
      simp [ENOMEM, h1, h2, h3] at h0
  by_cases h4 : env.set_power_mode = 0
  swap
  · refine ⟨env.set_power_mode,
      client.logged ([.devm_kzalloc true, .gip_init_input GIP_WL_NAME 0] ++
        capability_calls env.input_dev ++
        [.input_register_device env.input_dev 0,
         .gip_set_power_mode .GIP_PWR_ON env.set_power_mode]),
      ([.devm_kzalloc true, .gip_init_input GIP_WL_NAME 0] ++
        capability_calls env.input_dev ++
        [.input_register_device env.input_dev 0,
         .gip_set_power_mode .GIP_PWR_ON env.set_power_mode]),
      r4 h1 h2 h3 h4, ?_, ?_, ?_, ?_⟩
    · simp [gip_client.logged, dev_set_drvdata]
    · simp [gip_client.logged, dev_set_drvdata]
    · intro _
      simp [gip_client.logged, capability_calls, h1, h2, h3, h4]
    · intro h0
      simp [ENOMEM, h1, h2, h3, h4] at h0
  by_cases h5 : env.init_led = 0
  swap
  · refine ⟨env.init_led,
      client.logged ([.devm_kzalloc true, .gip_init_input GIP_WL_NAME 0] ++
        capability_calls env.input_dev ++
        [.input_register_device env.input_dev 0, .gip_set_power_mode .GIP_PWR_ON 0,
         .gip_init_led env.init_led]),
      ([.devm_kzalloc true, .gip_init_input GIP_WL_NAME 0] ++
        capability_calls env.input_dev ++
        [.input_register_device env.input_dev 0, .gip_set_power_mode .GIP_PWR_ON 0,
         .gip_init_led env.init_led]),
      r5 h1 h2 h3 h4 h5, ?_, ?_, ?_, ?_⟩
    · simp [gip_client.logged, dev_set_drvdata]
    · simp [gip_client.logged, dev_set_drvdata]
    · intro _
      simp [gip_client.logged, capability_calls, h1, h2, h3, h4, h5]
    · intro h0
      simp [ENOMEM, h1, h2, h3, h4, h5] at h0
  by_cases h6 : env.complete_authentication = 0
  swap
  · refine ⟨env.complete_authentication,
      client.logged ([.devm_kzalloc true, .gip_init_input GIP_WL_NAME 0] ++
        capability_calls env.input_dev ++
        [.input_register_device env.input_dev 0, .gip_set_power_mode .GIP_PWR_ON 0,
         .gip_init_led 0, .gip_complete_authentication env.complete_authentication]),
      ([.devm_kzalloc true, .gip_init_input GIP_WL_NAME 0] ++
        capability_calls env.input_dev ++
        [.input_register_device env.input_dev 0, .gip_set_power_mode .GIP_PWR_ON 0,
         .gip_init_led 0, .gip_complete_authentication env.complete_authentication]),
      r6 h1 h2 h3 h4 h5 h6, ?_, ?_, ?_, ?_⟩
    · simp [gip_client.logged, dev_set_drvdata]
    · simp [gip_client.logged, dev_set_drvdata]
    · intro _
      simp [gip_client.logged, capability_calls, h1, h2, h3, h4, h5, Ne.symm h6]
    · intro h0
      simp [ENOMEM, h1, h2, h3, h4, h5, h6] at h0
  · refine ⟨0,
      dev_set_drvdata
        (client.logged ([.devm_kzalloc true, .gip_init_input GIP_WL_NAME 0] ++
        capability_calls env.input_dev ++
        [.input_register_device env.input_dev 0, .gip_set_power_mode .GIP_PWR_ON 0,
         .gip_init_led 0, .gip_complete_authentication 0]))
        (some (probed_wheel env client)),
      ([.devm_kzalloc true, .gip_init_input GIP_WL_NAME 0] ++
        capability_calls env.input_dev ++
        [.input_register_device env.input_dev 0, .gip_set_power_mode .GIP_PWR_ON 0,
         .gip_init_led 0, .gip_complete_authentication 0]),
      r7 h1 h2 h3 h4 h5 h6, ?_, ?_, ?_, ?_⟩
    · simp [gip_client.logged, dev_set_drvdata]
    · simp [gip_client.logged, dev_set_drvdata]
    · intro h0
      exact absurd rfl h0
    · intro _
      exact ⟨rfl, rfl⟩

/-! ## The states `gip_wheel_probe` passes through -/

theorem probe_states_total (env : probe_env) (client : gip_client) :
    ∃ ret earlier final, gip_wheel_probe_states env client = some (ret, earlier, final) := by
  by_cases h1 : env.kzalloc_ok = true <;> by_cases h2 : env.init_input = 0 <;>
    by_cases h3 : env.register_device = 0 <;> by_cases h4 : env.set_power_mode = 0 <;>
    by_cases h5 : env.init_led = 0 <;> by_cases h6 : env.complete_authentication = 0 <;>
    simp [gip_wheel_probe_states, devm_kzalloc, gip_init_input, init_input_run,
      gip_set_power_mode, gip_init_led, gip_complete_authentication, h1, h2, h3, h4, h5, h6]

/-- The driver data along a run of `gip_wheel_probe`: in every state before the
one in which probe returns it is what it was before the call; and when probe
returns `0`, the state in which it returns is the last of those states, whose
log ends with the successful authentication completion, with the driver data
set to the new wheel. -/
theorem probe_states_history (env : probe_env) (client : gip_client) (ret : Int)
    (earlier : List gip_client) (final : gip_client)
    (h : gip_wheel_probe_states env client = some (ret, earlier, final)) :
    (∀ s ∈ earlier, s.drvdata = client.drvdata) ∧
    (ret = 0 → ∃ c, earlier.getLast? = some c ∧
      c.calls.getLast? = some (.gip_complete_authentication 0) ∧
      final = dev_set_drvdata c (some (probed_wheel env client))) := by
  by_cases h1 : env.kzalloc_ok = true
  swap
  · simp [gip_wheel_probe_states, devm_kzalloc, gip_init_input, init_input_run,
      gip_set_power_mode, gip_init_led, gip_complete_authentication,
      h1] at h
    obtain ⟨rfl, rfl, rfl⟩ := h
    refine ⟨?_, ?_⟩
    · intro s hs
      simp at hs
    · intro h0
      simp [ENOMEM, h1] at h0
  by_cases h2 : env.init_input = 0
  swap
  · simp [gip_wheel_probe_states, devm_kzalloc, gip_init_input, init_input_run,
      gip_set_power_mode, gip_init_led, gip_complete_authentication,
      h1, h2] at h
    obtain ⟨rfl, rfl, rfl⟩ := h
    refine ⟨?_, ?_⟩
    · intro s hs
      simp at hs
      rcases hs with rfl
      rfl
    · intro h0
      simp [ENOMEM, h1, h2] at h0
  by_cases h3 : env.register_device = 0
  swap
  · simp [gip_wheel_probe_states, devm_kzalloc, gip_init_input, init_input_run,
      gip_set_power_mode, gip_init_led, gip_complete_authentication,
      h1, h2, h3] at h
    obtain ⟨rfl, rfl, rfl⟩ := h
    refine ⟨?_, ?_⟩
    · intro s hs
      simp at hs
      rcases hs with rfl | rfl <;> rfl
    · intro h0
      simp [ENOMEM, h1, h2, h3] at h0
  by_cases h4 : env.set_power_mode = 0
  swap
  · simp [gip_wheel_probe_states, devm_kzalloc, gip_init_input, init_input_run,
      gip_set_power_mode, gip_init_led, gip_complete_authentication,
      h1, h2, h3, h4] at h
    obtain ⟨rfl, rfl, rfl⟩ := h
    refine ⟨?_, ?_⟩
    · intro s hs
      simp at hs
      rcases hs with rfl | rfl | rfl <;> rfl
    · intro h0
      simp [ENOMEM, h1, h2, h3, h4] at h0
  by_cases h5 : env.init_led = 0
  swap
  · simp [gip_wheel_probe_states, devm_kzalloc, gip_init_input, init_input_run,
      gip_set_power_mode, gip_init_led, gip_complete_authentication,
      h1, h2, h3, h4, h5] at h
    obtain ⟨rfl, rfl, rfl⟩ := h
    refine ⟨?_, ?_⟩
    · intro s hs
      simp at hs
      rcases hs with rfl | rfl | rfl | rfl <;> rfl
    · intro h0
      simp [ENOMEM, h1, h2, h3, h4, h5] at h0
  by_cases h6 : env.complete_authentication = 0
  swap
  · simp [gip_wheel_probe_states, devm_kzalloc, gip_init_input, init_input_run,
      gip_set_power_mode, gip_init_led, gip_complete_authentication,
      h1, h2, h3, h4, h5, h6] at h
    obtain ⟨rfl, rfl, rfl⟩ := h
    refine ⟨?_, ?_⟩
    · intro s hs
      simp at hs
      rcases hs with rfl | rfl | rfl | rfl | rfl <;> rfl
    · intro h0
      simp [ENOMEM, h1, h2, h3, h4, h5, h6] at h0
  · simp [gip_wheel_probe_states, devm_kzalloc, gip_init_input, init_input_run,
      gip_set_power_mode, gip_init_led, gip_complete_authentication,
      h1, h2, h3, h4, h5, h6] at h
    obtain ⟨rfl, rfl, rfl⟩ := h
    refine ⟨?_, ?_⟩
    · intro s hs
      simp at hs
      rcases hs with rfl | rfl | rfl | rfl | rfl | rfl <;> rfl
    · intro _
      refine ⟨_, rfl, ?_, rfl⟩
      simp [gip_client.call, List.getLast?_concat]

/-! ## The claims on removal, the guide button and attachment -/

/-- C11: `gip_wheel_remove` is idempotent and safe in every state.  It is a
total function of the client state (it cannot fault); removing twice gives the
same state as removing once; after a removal the driver data is `NULL`, the
identity and the log of calls being untouched; on a client whose context is not
attached, be it never probed, left by a failed probe, or already removed,
removal changes nothing. -/
theorem remove_idempotent (client : gip_client) :
    gip_wheel_remove (gip_wheel_remove client) = gip_wheel_remove client ∧
    (gip_wheel_remove client).drvdata = none ∧
    (gip_wheel_remove client).calls = client.calls ∧
    (gip_wheel_remove client).id = client.id ∧
    (client.drvdata = none → gip_wheel_remove client = client) ∧
    (∀ env ret client', client.drvdata = none →
      gip_wheel_probe env client = some (ret, client') → ret ≠ 0 →
      gip_wheel_remove client' = client') := by
  refine ⟨rfl, rfl, rfl, rfl, ?_, ?_⟩
  · intro h
    cases client
    simp_all [gip_wheel_remove, dev_set_drvdata]
  · intro env ret client' hnone hrun hret
    obtain ⟨r, c, evs, hr, -, -, hfail, -⟩ := probe_attach env client
    rw [hr] at hrun
    obtain ⟨rfl, rfl⟩ := Prod.mk.inj (Option.some.inj hrun)
    have hd : c.drvdata = none := ((hfail hret).1).trans hnone
    cases c
    simp_all [gip_wheel_remove, dev_set_drvdata]

/-- C12: for every boolean `down`, on a client with an attached wheel,
`gip_wheel_op_guide_button` returns `0` and emits exactly two events, in this
order: one key event for `BTN_MODE`, with value 1 (pressed) when `down` is true
and 0 (released) otherwise, then one synchronization marker. -/
theorem guide_button_events (client : gip_client) (wheel : gip_wheel) (dev : Nat)
    (down : Bool)
    (hw : client.drvdata = some wheel) (hd : wheel.input.dev = some dev) :
    gip_wheel_op_guide_button client down =
      some (0, client.logged
        [ .input_event dev EV_KEY BTN_MODE (if down then 1 else 0),
          .input_event dev EV_SYN SYN_REPORT 0 ]) := by
  cases down <;>
    simp [gip_wheel_op_guide_button, dev_get_drvdata, hw, hd, input_report_key, input_sync,
      input_event, lnot_lnot, gip_client.call, gip_client.logged]

/-- Witness of C12: the guide button pressed on `client0`. -/
theorem guide_button_events_witness :
    gip_wheel_op_guide_button client0 true =
      some (0, client0.logged
        [ .input_event 7 EV_KEY BTN_MODE (if true then 1 else 0),
          .input_event 7 EV_SYN SYN_REPORT 0 ]) :=
  guide_button_events client0 wheel0 7 true rfl rfl

/-- C17: `gip_wheel_probe` attaches the context exactly when it returns `0`.
Every run returns.  A run that returns an error leaves the driver data of the
client exactly as it was, has recorded no successful authentication completion,
and in none of the states it passes through is the driver data other than
before the call.  A run that returns `0` has set the driver data to the wheel
allocated in that run, and it did so only after authentication completion had
succeeded: in every earlier state of the run the driver data is still what it
was before the call, the last of those states already holds the whole log of
the run, which ends with the successful `gip_complete_authentication`, and the
state in which probe returns is that state with the driver data set. -/
theorem probe_attaches_iff_success (env : probe_env) (client : gip_client) :
    ∃ ret earlier client' evs,
      gip_wheel_probe_states env client = some (ret, earlier, client') ∧
      gip_wheel_probe env client = some (ret, client') ∧
      client'.calls = client.calls ++ evs ∧
      (ret = 0 → client'.drvdata = some (probed_wheel env client)) ∧
      (ret ≠ 0 → client'.drvdata = client.drvdata) ∧
      (ret = 0 → evs.getLast? = some (.gip_complete_authentication 0)) ∧
      (ret ≠ 0 → ext_call.gip_complete_authentication 0 ∉ evs) ∧
      (probed_wheel env client).client = some client.id ∧
      (probed_wheel env client).input.dev = some env.input_dev ∧
      (∀ s ∈ earlier, s.drvdata = client.drvdata) ∧
      (ret = 0 → ∃ c, earlier.getLast? = some c ∧ c.drvdata = client.drvdata ∧
        c.calls = client.calls ++ evs ∧
        client' = dev_set_drvdata c (some (probed_wheel env client))) := by
  obtain ⟨ret, earlier, final, hs⟩ := probe_states_total env client
  have hp : gip_wheel_probe env client = some (ret, final) := by
    simp [gip_wheel_probe, hs]
  obtain ⟨hearlier, hlast⟩ := probe_states_history env client ret earlier final hs
  obtain ⟨r, c, evs, hr, hcalls, -, hfail, hok⟩ := probe_attach env client
  rw [hp] at hr
  obtain ⟨rfl, rfl⟩ := Prod.mk.inj (Option.some.inj hr)
  refine ⟨ret, earlier, final, evs, hs, hp, hcalls, fun h => (hok h).1, fun h => (hfail h).1,
    fun h => (hok h).2, fun h => (hfail h).2, rfl, rfl, hearlier, ?_⟩
  intro h0
  obtain ⟨c, hc, -, hfinal⟩ := hlast h0
  refine ⟨c, hc, hearlier c (List.mem_of_mem_getLast? hc), ?_, hfinal⟩
  rw [← hcalls, hfinal]
  rfl

/-! ## The claims on the declared capabilities -/

/-- C13, counterexample: the capabilities `gip_wheel_init_input` declares on a
device hold nine distinct key codes, `BTN_MODE` among them, not eight. -/
theorem init_input_declares_nine_keys :
    (declared_keys (init_input_calls 7)).length = 9 ∧
    (declared_keys (init_input_calls 7)).Nodup ∧
    BTN_MODE ∈ declared_keys (init_input_calls 7) ∧
    (declared_keys (init_input_calls 7)).length ≠ 8 := by
  decide

/-- C13, amended: before it registers the device, `gip_wheel_init_input`
declares exactly nine discrete buttons (`BTN_MODE` for the guide button and the
eight buttons of the input report), one 16-bit axis (`ABS_X`, range
`0..65535`), three 10-bit axes (`ABS_Y`, `ABS_Z`, `ABS_RZ`, range `0..1023`
each) and two tri-state hat axes (`ABS_HAT0X`, `ABS_HAT0Y`, range `-1..1`
each), and nothing else: these fifteen declarations are all the calls before
`input_register_device`, and no declaration follows it. -/
theorem init_input_capabilities (env : probe_env) (client : gip_client) (wheel : gip_wheel)
    (dev cid : Nat) (hd : wheel.input.dev = some dev) (hc : wheel.client = some cid) :
    ∃ err client' before after,
      gip_wheel_init_input env client wheel = some (err, client') ∧
      client'.calls =
        client.calls ++ before ++ .input_register_device dev err :: after ∧
      (∀ e ∈ before, is_declaration e = true) ∧
      (∀ e ∈ after, is_declaration e = false) ∧
      before.length = 15 ∧
      declared_keys before =
        [BTN_MODE, BTN_START, BTN_SELECT, BTN_A, BTN_B, BTN_X, BTN_Y, BTN_TL, BTN_TR] ∧
      (declared_keys before).Nodup ∧
      declared_other before = [] ∧
      declared_abs before =
        [(ABS_X, 0, 65535), (ABS_Y, 0, 1023), (ABS_Z, 0, 1023), (ABS_RZ, 0, 1023),
         (ABS_HAT0X, -1, 1), (ABS_HAT0Y, -1, 1)] ∧
      (declared_axes before).Nodup := by
  obtain ⟨wc, wl, ⟨wd⟩⟩ := wheel
  simp only at hd hc
  subst hd hc
  refine ⟨env.register_device, _, capability_calls dev,
    (if env.register_device ≠ 0 then [.dev_err env.register_device] else []),
    init_input_run env client wl dev cid, ?_, ?_, ?_, ?_, ?_, ?_, ?_, ?_, ?_⟩
  · simp [gip_client.logged]
  · intro e he
    simp only [capability_calls, List.mem_cons, List.mem_singleton, List.not_mem_nil,
      or_false] at he
    rcases he with h | h | h | h | h | h | h | h | h | h | h | h | h | h | h <;>
      subst h <;> rfl
  · intro e he
    by_cases h : env.register_device = 0
    · simp [h] at he
    · simp [h] at he
      subst he
      rfl
  · rfl
  · simp [declared_keys, capability_calls]
  · simp [declared_keys, capability_calls, EV_KEY, BTN_MODE, BTN_START, BTN_SELECT, BTN_A,
      BTN_B, BTN_X, BTN_Y, BTN_TL, BTN_TR]
  · simp [declared_other, capability_calls]
  · simp [declared_abs, capability_calls]
  · simp [declared_axes, declared_abs, capability_calls, ABS_X, ABS_Y, ABS_Z, ABS_RZ, ABS_HAT0X,
      ABS_HAT0Y]

/-- Witness of C13 (amended): a successful registration on device `7`. -/
theorem init_input_capabilities_witness :
    ∃ err client' before after,
      gip_wheel_init_input env_ok client_new
          { client := some 1, led := ⟨false⟩, input := ⟨some 7⟩ } = some (err, client') ∧
      client'.calls =
        client_new.calls ++ before ++ .input_register_device 7 err :: after ∧
      (∀ e ∈ before, is_declaration e = true) ∧
      (∀ e ∈ after, is_declaration e = false) ∧
      before.length = 15 ∧
      declared_keys before =
        [BTN_MODE, BTN_START, BTN_SELECT, BTN_A, BTN_B, BTN_X, BTN_Y, BTN_TL, BTN_TR] ∧
      (declared_keys before).Nodup ∧
      declared_other before = [] ∧
      declared_abs before =
        [(ABS_X, 0, 65535), (ABS_Y, 0, 1023), (ABS_Z, 0, 1023), (ABS_RZ, 0, 1023),
         (ABS_HAT0X, -1, 1), (ABS_HAT0Y, -1, 1)] ∧
      (declared_axes before).Nodup :=
  init_input_capabilities env_ok client_new
    { client := some 1, led := ⟨false⟩, input := ⟨some 7⟩ } 7 1 rfl rfl

/-! ## Every run of `gip_wheel_op_input` and `gip_wheel_op_guide_button` -/

theorem le16_to_cpu_at_bound (data : List u8) (off v : Nat)
    (h : le16_to_cpu_at data off = some v) : off + 1 < data.length := by
  by_contra hlt
  have hnone : data[off + 1]? = none := List.getElem?_eq_none (by omega)
  cases h0 : data[off]? <;> simp [le16_to_cpu_at, h0, hnone] at h

theorem byte_at_take (data : List u8) (n i : Nat) (h : i < n) :
    byte_at (data.take n) i = byte_at data i := by
  simp [byte_at, List.getElem?_take_of_lt h]

theorem le16_word_take (data : List u8) (n i : Nat) (h : i + 1 < n) :
    le16_word (data.take n) i = le16_word data i := by
  simp [le16_word, byte_at_take data n i (by omega), byte_at_take data n (i + 1) h]

/-- An accepted report, by the outcome of the length check alone: when the
comparison with `sizeof(*pkt)` does not reject and ten bytes are readable, the
report is decoded. -/
theorem op_input_accept (client : gip_client) (wheel : gip_wheel) (dev : Nat)
    (data : List u8) (len : Int)
    (hw : client.drvdata = some wheel) (hd : wheel.input.dev = some dev)
    (hs : ¬ size_t_of_int len < sizeof_pkt_input) (hl : 10 ≤ data.length) :
    gip_wheel_op_input client data len =
      some (0, client.logged (report_calls dev (le16_word data 0) (le16_word data 2)
        (le16_word data 4) (le16_word data 6) (le16_word data 8))) := by
  simp only [gip_wheel_op_input, dev_get_drvdata, hw, hd, pkt_off_buttons, pkt_off_steering,
    pkt_off_accelerator, pkt_off_brake, pkt_off_clutch,
    le16_to_cpu_at_eq data 0 (by omega), le16_to_cpu_at_eq data 2 (by omega),
    le16_to_cpu_at_eq data 4 (by omega), le16_to_cpu_at_eq data 6 (by omega),
    le16_to_cpu_at_eq data 8 (by omega), Option.bind_eq_bind, Option.some_bind,
    Option.pure_def, if_neg hs,
    GIP_WL_BTN_MENU, GIP_WL_BTN_VIEW, GIP_WL_BTN_A, GIP_WL_BTN_B, GIP_WL_BTN_X, GIP_WL_BTN_Y,
    GIP_WL_BTN_DPAD_U, GIP_WL_BTN_DPAD_D, GIP_WL_BTN_DPAD_L, GIP_WL_BTN_DPAD_R,
    GIP_WL_BTN_BUMPER_L, GIP_WL_BTN_BUMPER_R, lnot_lnot_bit_and,
    input_report_key, input_report_abs, input_sync, input_event, gip_client.call,
    gip_client.logged, report_calls, List.append_assoc, List.singleton_append, Int.ofNat_eq_coe,
    List.cons_append, List.nil_append]

/-- Every run of `gip_wheel_op_input` that returns: either the frame is
rejected with `-EINVAL` and the client is left as it was, or the wheel is
attached, ten bytes were readable and the frame is decoded. -/
theorem op_input_cases (client : gip_client) (data : List u8) (len : Int)
    (r : Int × gip_client) (h : gip_wheel_op_input client data len = some r) :
    (r = (-EINVAL, client) ∧ size_t_of_int len < sizeof_pkt_input ∧ 2 ≤ data.length) ∨
    ∃ wheel dev, client.drvdata = some wheel ∧ wheel.input.dev = some dev ∧
      ¬ size_t_of_int len < sizeof_pkt_input ∧ 10 ≤ data.length ∧
      r = (0, client.logged (report_calls dev (le16_word data 0) (le16_word data 2)
        (le16_word data 4) (le16_word data 6) (le16_word data 8))) := by
  cases hw : client.drvdata with
  | none => simp [gip_wheel_op_input, dev_get_drvdata, hw] at h
  | some wheel =>
    cases hb : le16_to_cpu_at data pkt_off_buttons with
    | none => simp [gip_wheel_op_input, dev_get_drvdata, hw, hb] at h
    | some buttons =>
      have hb2 := le16_to_cpu_at_bound data _ _ hb
      by_cases hs : size_t_of_int len < sizeof_pkt_input
      · left
        simp [gip_wheel_op_input, dev_get_drvdata, hw, hb, hs] at h
        simp only [pkt_off_buttons] at hb2
        exact ⟨h.symm, hs, by omega⟩
      · right
        cases hd : wheel.input.dev with
        | none => simp [gip_wheel_op_input, dev_get_drvdata, hw, hb, hs, hd] at h
        | some dev =>
          cases h8 : le16_to_cpu_at data pkt_off_clutch with
          | none =>
            cases h2 : le16_to_cpu_at data pkt_off_steering <;>
              cases h4 : le16_to_cpu_at data pkt_off_accelerator <;>
              cases h6 : le16_to_cpu_at data pkt_off_brake <;>
              simp [gip_wheel_op_input, dev_get_drvdata, hw, hb, hs, hd, h2, h4, h6, h8] at h
          | some clutch =>
            have hl := le16_to_cpu_at_bound data _ _ h8
            simp only [pkt_off_clutch] at hl
            have hl10 : 10 ≤ data.length := by omega
            rw [op_input_accept client wheel dev data len hw hd hs hl10] at h
            exact ⟨wheel, dev, rfl, hd, hs, hl10, (Option.some.inj h).symm⟩

/-- Every run of `gip_wheel_op_guide_button` that returns. -/
theorem guide_button_cases (client : gip_client) (down : Bool) (r : Int × gip_client)
    (h : gip_wheel_op_guide_button client down = some r) :
    ∃ wheel dev, client.drvdata = some wheel ∧ wheel.input.dev = some dev ∧
      r = (0, client.logged
        [ .input_event dev EV_KEY BTN_MODE (if down then 1 else 0),
          .input_event dev EV_SYN SYN_REPORT 0 ]) := by
  cases hw : client.drvdata with
  | none => simp [gip_wheel_op_guide_button, dev_get_drvdata, hw] at h
  | some wheel =>
    cases hd : wheel.input.dev with
    | none => simp [gip_wheel_op_guide_button, dev_get_drvdata, hw, hd] at h
    | some dev =>
      refine ⟨wheel, dev, rfl, hd, ?_⟩
      cases down <;>
        simp [gip_wheel_op_guide_button, dev_get_drvdata, hw, hd, input_report_key, input_sync,
          input_event, lnot_lnot, gip_client.call, gip_client.logged] at h ⊢ <;>
        exact h.symm

/-! ## The claims on determinism, unmapped bits, declared codes and reads -/

/-- C14: `gip_wheel_op_input` is total and deterministic on well-formed frames.
On clients with an attached wheel and the same input device, two calls whose
buffers hold at least ten bytes, with `len >= 10`, and agree on their first ten
bytes both return `0` and emit the same event sequence, whatever the trailing
bytes, the lengths and the logs of the two clients; in particular the same
events are emitted after any earlier call of the decoder on the client. -/
theorem op_input_deterministic (c1 c2 : gip_client) (w1 w2 : gip_wheel) (dev : Nat)
    (d1 d2 : List u8) (l1 l2 : Int)
    (hw1 : c1.drvdata = some w1) (hd1 : w1.input.dev = some dev)
    (hw2 : c2.drvdata = some w2) (hd2 : w2.input.dev = some dev)
    (hl1 : 10 ≤ l1) (hm1 : l1 ≤ INT_MAX) (hb1 : l1 ≤ d1.length)
    (hl2 : 10 ≤ l2) (hm2 : l2 ≤ INT_MAX) (hb2 : l2 ≤ d2.length)
    (hsame : d1.take 10 = d2.take 10) :
    ∃ evs, gip_wheel_op_input c1 d1 l1 = some (0, c1.logged evs) ∧
      gip_wheel_op_input c2 d2 l2 = some (0, c2.logged evs) ∧
      ∀ d0 l0 r0 c', gip_wheel_op_input c1 d0 l0 = some (r0, c') →
        gip_wheel_op_input c' d1 l1 = some (0, c'.logged evs) := by
  have hword : ∀ i, i + 1 < 10 → le16_word d1 i = le16_word d2 i := by
    intro i hi
    rw [← le16_word_take d1 10 i hi, ← le16_word_take d2 10 i hi, hsame]
  refine ⟨_, op_input_frame c1 w1 dev d1 l1 hw1 hd1 hl1 hm1 hb1, ?_, ?_⟩
  · rw [op_input_frame c2 w2 dev d2 l2 hw2 hd2 hl2 hm2 hb2, hword 0 (by omega),
      hword 2 (by omega), hword 4 (by omega), hword 6 (by omega), hword 8 (by omega)]
  · intro d0 l0 r0 c' h0
    have hw' : c'.drvdata = some w1 := by
      rcases op_input_cases c1 d0 l0 _ h0 with ⟨h, -, -⟩ | ⟨w, d, -, -, -, -, h⟩
      · rw [(Prod.mk.inj h).2]; exact hw1
      · rw [(Prod.mk.inj h).2]; exact hw1
    exact op_input_frame c' w1 dev d1 l1 hw' hd1 hl1 hm1 hb1

/-- Witness of C14: the example frame on `client0` with `len = 10`, and the
same ten bytes followed by three more on a client that has decoded another
frame before, with `len = 11`. -/
theorem op_input_deterministic_witness :
    ∃ evs, gip_wheel_op_input client0 frame_a_b 10 = some (0, client0.logged evs) ∧
      gip_wheel_op_input (client0.logged (report_calls 7 0 0 65535 0 0)) frame_a_b_long 11 =
        some (0, (client0.logged (report_calls 7 0 0 65535 0 0)).logged evs) ∧
      ∀ d0 l0 r0 c', gip_wheel_op_input client0 d0 l0 = some (r0, c') →
        gip_wheel_op_input c' frame_a_b 10 = some (0, c'.logged evs) :=
  op_input_deterministic client0 (client0.logged (report_calls 7 0 0 65535 0 0)) wheel0 wheel0 7
    frame_a_b frame_a_b_long 10 11 rfl rfl rfl rfl (by decide) (by decide) (by decide)
    (by decide) (by decide) (by decide) (by decide)

/-- C15: the twelve masks of `enum gip_wheel_button` are the single-bit values
of bits 2..13, pairwise distinct; and two accepted frames whose buttons words
agree on bits 2..13 and whose axis bytes (offsets 2..9) agree, that is, frames
that differ at most in bits 0, 1, 14 and 15 of the buttons word, produce the
same return value and the same event sequence. -/
theorem op_input_ignores_unmapped_bits (client : gip_client) (wheel : gip_wheel) (dev : Nat)
    (d1 d2 : List u8) (l1 l2 : Int)
    (hw : client.drvdata = some wheel) (hd : wheel.input.dev = some dev)
    (hl1 : 10 ≤ l1) (hm1 : l1 ≤ INT_MAX) (hb1 : l1 ≤ d1.length)
    (hl2 : 10 ≤ l2) (hm2 : l2 ≤ INT_MAX) (hb2 : l2 ≤ d2.length)
    (hbits : ∀ k, 2 ≤ k → k ≤ 13 →
      (le16_word d1 0).testBit k = (le16_word d2 0).testBit k)
    (haxes : ∀ i, 2 ≤ i → i < 10 → byte_at d1 i = byte_at d2 i) :
    gip_wheel_button_masks = (List.range 12).map (fun i => 2 ^ (i + 2)) ∧
    gip_wheel_button_masks.Nodup ∧
    ∃ evs, gip_wheel_op_input client d1 l1 = some (0, client.logged evs) ∧
      gip_wheel_op_input client d2 l2 = some (0, client.logged evs) := by
  refine ⟨by decide, by decide, _,
    op_input_frame client wheel dev d1 l1 hw hd hl1 hm1 hb1, ?_⟩
  rw [op_input_frame client wheel dev d2 l2 hw hd hl2 hm2 hb2]
  have hword : ∀ i, 2 ≤ i → i + 1 < 10 → le16_word d1 i = le16_word d2 i := by
    intro i h2 h10
    simp [le16_word, haxes i h2 (by omega), haxes (i + 1) (by omega) h10]
  simp only [report_calls, bit_of, hbits 2 (by omega) (by omega),
    hbits 3 (by omega) (by omega), hbits 4 (by omega) (by omega),
    hbits 5 (by omega) (by omega), hbits 6 (by omega) (by omega),
    hbits 7 (by omega) (by omega), hbits 8 (by omega) (by omega),
    hbits 9 (by omega) (by omega), hbits 10 (by omega) (by omega),
    hbits 11 (by omega) (by omega), hbits 12 (by omega) (by omega),
    hbits 13 (by omega) (by omega), hword 2 (by omega) (by omega),
    hword 4 (by omega) (by omega), hword 6 (by omega) (by omega),
    hword 8 (by omega) (by omega)]

/-- Witness of C15: the example frame (`buttons = 0x0030`) and the same frame
with bits 0, 1, 14 and 15 set as well (`buttons = 0xc033`), on `client0`. -/
theorem op_input_ignores_unmapped_bits_witness :
    gip_wheel_button_masks = (List.range 12).map (fun i => 2 ^ (i + 2)) ∧
    gip_wheel_button_masks.Nodup ∧
    ∃ evs, gip_wheel_op_input client0 frame_a_b 10 = some (0, client0.logged evs) ∧
      gip_wheel_op_input client0 frame_a_b_unmapped 10 = some (0, client0.logged evs) :=
  op_input_ignores_unmapped_bits client0 wheel0 7 frame_a_b frame_a_b_unmapped 10 10 rfl rfl
    (by decide) (by decide) (by decide) (by decide) (by decide) (by decide)
    (by intro k h2 h13; interval_cases k <;> decide)
    (by intro i h2 h10; interval_cases i <;> decide)

theorem init_input_calls_eq (dev : Nat) :
    init_input_calls dev = capability_calls dev ++ [.input_register_device dev 0] := by
  simp [init_input_calls, init_input_run, gip_client.logged]

theorem declared_keys_init (dev : Nat) :
    declared_keys (init_input_calls dev) =
      [BTN_MODE, BTN_START, BTN_SELECT, BTN_A, BTN_B, BTN_X, BTN_Y, BTN_TL, BTN_TR] := by
  simp [init_input_calls_eq, declared_keys, capability_calls]

theorem declared_axes_init (dev : Nat) :
    declared_axes (init_input_calls dev) =
      [ABS_X, ABS_Y, ABS_Z, ABS_RZ, ABS_HAT0X, ABS_HAT0Y] := by
  simp [init_input_calls_eq, declared_axes, declared_abs, capability_calls]

theorem report_calls_declared (dev w x y z rz : Nat) (d t c : Nat) (v : Int)
    (h : ext_call.input_event d t c v ∈ report_calls dev w x y z rz) :
    (t = EV_KEY ∧ c ∈ declared_keys (init_input_calls dev)) ∨
    (t = EV_ABS ∧ c ∈ declared_axes (init_input_calls dev)) ∨
    (t = EV_SYN ∧ c = SYN_REPORT ∧ v = 0) := by
  rw [declared_keys_init, declared_axes_init]
  simp only [report_calls, List.mem_cons, ext_call.input_event.injEq, List.mem_singleton,
    List.not_mem_nil, or_false] at h
  rcases h with h | h | h | h | h | h | h | h | h | h | h | h | h | h | h <;>
    obtain ⟨-, rfl, rfl, rfl⟩ := h <;> simp

/-- C16: every key code and every axis code that `gip_wheel_op_input` (for any
buffer and any length) or `gip_wheel_op_guide_button` (for any `down`) emits is
among the key capabilities, respectively the axes given abs parameters, that
`gip_wheel_init_input` declares; the only other event either emits is the
synchronization marker.  Conversely every declared key and every declared axis
is emitted: `BTN_MODE` by the guide button, the eight other keys and the six
axes by the decoder on an accepted frame. -/
theorem emitted_codes_declared (client : gip_client) (wheel : gip_wheel) (dev : Nat)
    (hw : client.drvdata = some wheel) (hd : wheel.input.dev = some dev) :
    (∀ data len r client', gip_wheel_op_input client data len = some (r, client') →
      ∃ evs, client'.calls = client.calls ++ evs ∧
        ∀ d t c v, ext_call.input_event d t c v ∈ evs →
          (t = EV_KEY ∧ c ∈ declared_keys (init_input_calls dev)) ∨
          (t = EV_ABS ∧ c ∈ declared_axes (init_input_calls dev)) ∨
          (t = EV_SYN ∧ c = SYN_REPORT ∧ v = 0)) ∧
    (∀ down r client', gip_wheel_op_guide_button client down = some (r, client') →
      ∃ evs, client'.calls = client.calls ++ evs ∧
        ∀ d t c v, ext_call.input_event d t c v ∈ evs →
          (t = EV_KEY ∧ c ∈ declared_keys (init_input_calls dev)) ∨
          (t = EV_ABS ∧ c ∈ declared_axes (init_input_calls dev)) ∨
          (t = EV_SYN ∧ c = SYN_REPORT ∧ v = 0)) ∧
    (∀ c ∈ declared_keys (init_input_calls dev), ∃ evs v,
      ext_call.input_event dev EV_KEY c v ∈ evs ∧
      (gip_wheel_op_guide_button client true = some (0, client.logged evs) ∨
        gip_wheel_op_input client frame_zero 10 = some (0, client.logged evs))) ∧
    (∀ a ∈ declared_axes (init_input_calls dev), ∃ evs v,
      ext_call.input_event dev EV_ABS a v ∈ evs ∧
      gip_wheel_op_input client frame_zero 10 = some (0, client.logged evs)) := by
  have hframe := op_input_frame client wheel dev frame_zero 10 hw hd (by decide) (by decide)
    (by decide)
  have hguide : gip_wheel_op_guide_button client true = some (0, client.logged
      [ .input_event dev EV_KEY BTN_MODE 1, .input_event dev EV_SYN SYN_REPORT 0 ]) := by
    simp [gip_wheel_op_guide_button, dev_get_drvdata, hw, hd, input_report_key, input_sync,
      input_event, lnot_lnot, gip_client.call, gip_client.logged]
  refine ⟨?_, ?_, ?_, ?_⟩
  · intro data len r client' h
    rcases op_input_cases client data len _ h with ⟨hr, -, -⟩ | ⟨w, d, hw', hd', -, -, hr⟩
    · refine ⟨[], ?_, ?_⟩
      · rw [(Prod.mk.inj hr).2]; simp
      · intro d t c v hmem
        simp at hmem
    · have hwd : d = dev := by
        rw [hw] at hw'
        obtain rfl := Option.some.inj hw'
        rw [hd] at hd'
        exact (Option.some.inj hd').symm
      subst hwd
      refine ⟨report_calls d (le16_word data 0) (le16_word data 2) (le16_word data 4)
        (le16_word data 6) (le16_word data 8), ?_,
        fun d' t c v hmem => report_calls_declared _ _ _ _ _ _ d' t c v hmem⟩
      rw [(Prod.mk.inj hr).2]
      rfl
  · intro down r client' h
    obtain ⟨w, d, -, -, hr⟩ := guide_button_cases client down _ h
    refine ⟨[ .input_event d EV_KEY BTN_MODE (if down then 1 else 0),
      .input_event d EV_SYN SYN_REPORT 0 ], ?_, ?_⟩
    · rw [(Prod.mk.inj hr).2]
      rfl
    · intro d' t c v hmem
      rw [declared_keys_init]
      simp only [List.mem_cons, ext_call.input_event.injEq, List.mem_singleton,
        List.not_mem_nil, or_false] at hmem
      rcases hmem with h | h <;> obtain ⟨-, rfl, rfl, rfl⟩ := h <;> simp
  · intro c hc
    rw [declared_keys_init] at hc
    simp only [List.mem_cons, List.mem_singleton, List.not_mem_nil, or_false] at hc
    rcases hc with h | h | h | h | h | h | h | h | h <;> subst h
    · exact ⟨_, 1, by simp, Or.inl hguide⟩
    all_goals exact ⟨_, 0, by simp [report_calls, bit_of, le16_word, byte_at, frame_zero],
      Or.inr hframe⟩
  · intro a ha
    rw [declared_axes_init] at ha
    simp only [List.mem_cons, List.mem_singleton, List.not_mem_nil, or_false] at ha
    rcases ha with h | h | h | h | h | h <;> subst h <;>
      exact ⟨_, 0, by simp [report_calls, bit_of, le16_word, byte_at, frame_zero], hframe⟩

/-- Witness of C16: `client0`, to which `wheel0` with device `7` is attached. -/
theorem emitted_codes_declared_witness :
    (∀ data len r client', gip_wheel_op_input client0 data len = some (r, client') →
      ∃ evs, client'.calls = client0.calls ++ evs ∧
        ∀ d t c v, ext_call.input_event d t c v ∈ evs →
          (t = EV_KEY ∧ c ∈ declared_keys (init_input_calls 7)) ∨
          (t = EV_ABS ∧ c ∈ declared_axes (init_input_calls 7)) ∨
          (t = EV_SYN ∧ c = SYN_REPORT ∧ v = 0)) ∧
    (∀ down r client', gip_wheel_op_guide_button client0 down = some (r, client') →
      ∃ evs, client'.calls = client0.calls ++ evs ∧
        ∀ d t c v, ext_call.input_event d t c v ∈ evs →
          (t = EV_KEY ∧ c ∈ declared_keys (init_input_calls 7)) ∨
          (t = EV_ABS ∧ c ∈ declared_axes (init_input_calls 7)) ∨
          (t = EV_SYN ∧ c = SYN_REPORT ∧ v = 0)) ∧
    (∀ c ∈ declared_keys (init_input_calls 7), ∃ evs v,
      ext_call.input_event 7 EV_KEY c v ∈ evs ∧
      (gip_wheel_op_guide_button client0 true = some (0, client0.logged evs) ∨
        gip_wheel_op_input client0 frame_zero 10 = some (0, client0.logged evs))) ∧
    (∀ a ∈ declared_axes (init_input_calls 7), ∃ evs v,
      ext_call.input_event 7 EV_ABS a v ∈ evs ∧
      gip_wheel_op_input client0 frame_zero 10 = some (0, client0.logged evs)) :=
  emitted_codes_declared client0 wheel0 7 rfl rfl

/-- C18, refuted on the code: `gip_wheel_op_input` loads the `buttons` field,
offsets 0 and 1, before it compares `len` with the report size.  On an empty
buffer with `len = 0` and on a one-byte buffer with `len = 1` the load is out
of bounds (the call faults instead of returning `-EINVAL`), whereas with the
same `len = 0` and two readable bytes the frame is rejected: bytes at offsets
`>= len` are read before the rejection. -/
theorem op_input_reads_before_check :
    le16_to_cpu_at [] pkt_off_buttons = none ∧
    gip_wheel_op_input client0 [] 0 = none ∧
    gip_wheel_op_input client0 [0] 1 = none ∧
    gip_wheel_op_input client0 [0, 0] 0 = some (-EINVAL, client0) ∧
    gip_wheel_op_input client0 [0, 0] 1 = some (-EINVAL, client0) := by
  decide

end Xone
